import Mathlib

/-!
Shallow embedding of
`Platform/RaspberryPi/Library/DualSerialPortLib/DualSerialPortLib.c`
(the dual 16550-mini-UART / PL011 serial port library for the Raspberry Pi).

Modelling choices:
* Machine integers are `Nat` with explicit `% 2 ^ w` at the points where the
  C code truncates (casts to `UINT8`/`UINT32`).
* Memory-mapped I/O is volatile: each read consults an oracle
  `readFn : readIndex → address → rawValue` and bumps a read counter, so
  successive reads of one register may differ, exactly as on hardware.
  Writes are recorded in a chronological log `writes : List (address × byte)`.
* The two process-wide globals `UsePl011Uart` / `UsePl011UartSet` are fields
  of the machine state.
* Busy-wait loops take explicit fuel and return `Option`: `none` models the
  spin not having terminated within the fuel.
* The PL011 back-end is an external collaborator (its library is not part of
  this repository); it is modelled from the spec as an abstract environment
  response, see `Pl011Env`.
-/

namespace DualSerialPortLib

/-- RETURN_STATUS values used by the driver (MdePkg `Base.h`). -/
inductive Status where
  | success
  | invalidParameter
  | unsupported
  | deviceError
deriving DecidableEq, Repr

/-! ### 16550 register offsets and bit fields (from the source header block) -/

def R_UART_RXBUF : Nat := 0
def R_UART_TXBUF : Nat := 0
def R_UART_BAUD_LOW : Nat := 0
def R_UART_BAUD_HIGH : Nat := 1
def R_UART_IER : Nat := 1
def R_UART_FCR : Nat := 2
def B_UART_FCR_FIFOE : Nat := 0x01
def B_UART_FCR_FIFO64 : Nat := 0x20
def R_UART_LCR : Nat := 3
def B_UART_LCR_DLAB : Nat := 0x80
def R_UART_MCR : Nat := 4
def B_UART_MCR_DTRC : Nat := 0x01
def B_UART_MCR_RTS : Nat := 0x02
def R_UART_LSR : Nat := 5
def B_UART_LSR_RXRDY : Nat := 0x01
def B_UART_LSR_TXRDY : Nat := 0x20
def B_UART_LSR_TEMT : Nat := 0x40
def R_UART_MSR : Nat := 6
def B_UART_MSR_CTS : Nat := 0x10
def B_UART_MSR_DSR : Nat := 0x20
def B_UART_MSR_RI : Nat := 0x40
def B_UART_MSR_DCD : Nat := 0x80

/-! ### EFI serial protocol constants (external MdePkg headers, not in src) -/

def EFI_SERIAL_DATA_TERMINAL_READY : Nat := 0x0001
def EFI_SERIAL_REQUEST_TO_SEND : Nat := 0x0002
def EFI_SERIAL_CLEAR_TO_SEND : Nat := 0x0010
def EFI_SERIAL_DATA_SET_READY : Nat := 0x0020
def EFI_SERIAL_RING_INDICATE : Nat := 0x0040
def EFI_SERIAL_CARRIER_DETECT : Nat := 0x0080
def EFI_SERIAL_INPUT_BUFFER_EMPTY : Nat := 0x0100
def EFI_SERIAL_OUTPUT_BUFFER_EMPTY : Nat := 0x0200
def EFI_SERIAL_HARDWARE_FLOW_CONTROL_ENABLE : Nat := 0x4000

/-- EFI_PARITY_TYPE values (external MdePkg header, a C enum, hence `Nat`). -/
def DefaultParity : Nat := 0
def NoParity : Nat := 1
def EvenParity : Nat := 2
def OddParity : Nat := 3
def MarkParity : Nat := 4
def SpaceParity : Nat := 5

/-- EFI_STOP_BITS_TYPE values (external MdePkg header, a C enum, hence `Nat`). -/
def DefaultStopBits : Nat := 0
def OneStopBit : Nat := 1
def OneFiveStopBits : Nat := 2
def TwoStopBits : Nat := 3

/-- Externally supplied configuration: the PCDs the driver reads, and the
fixed hardware addresses (the latter come from external `Bcm2836*.h` headers;
only their identity matters to this development, so they are fields too). -/
structure Config where
  pcdSerialRegisterStride : Nat
  pcdSerialUseHardwareFlowControl : Bool
  pcdSerialDetectCable : Bool
  pcdSerialClockRate : Nat
  pcdSerialBaudRate : Nat
  pcdSerialLineControl : Nat
  pcdSerialFifoControl : Nat
  pcdSerialExtendedTxFifoSize : Nat
  gpioBaseAddress : Nat
  cmVpuClockDivisorAddress : Nat
  miniUartRegisterBase : Nat

/-- The machine state visible to this library: the MMIO read oracle and read
counter, the chronological MMIO write log, and the two process-wide globals. -/
@[ext]
structure MachineState where
  readFn : Nat → Nat → Nat
  readCount : Nat
  writes : List (Nat × Nat)
  usePl011Uart : Bool
  usePl011UartSet : Bool

/-- Modelled from the spec: the PL011 back-end is an out-of-scope external
collaborator ("consumed here only through a small multiplexed contract").
Each forwarded call is modelled as an abstract response supplied by the
environment, leaving the modelled machine state unchanged. -/
structure Pl011Env where
  initStatus : Status
  writeResult : Nat
  readCountResult : Nat
  readBytesResult : List Nat
  pollResult : Bool
  setControlStatus : Status
  getControlStatus : Status
  getControlValue : Nat
  setAttrStatus : Status
  setAttrBaudRate : Nat
  setAttrFifoDepth : Nat
  setAttrParity : Nat
  setAttrDataBits : Nat
  setAttrStopBits : Nat

/-- `MmioRead8`: one volatile 8-bit read. -/
def mmioRead8 (addr : Nat) (s : MachineState) : Nat × MachineState :=
  (s.readFn s.readCount addr % 2 ^ 8, { s with readCount := s.readCount + 1 })

/-- `MmioRead32`: one volatile 32-bit read. -/
def mmioRead32 (addr : Nat) (s : MachineState) : Nat × MachineState :=
  (s.readFn s.readCount addr % 2 ^ 32, { s with readCount := s.readCount + 1 })

/-- `MmioWrite8`: append one 8-bit write to the log. -/
def mmioWrite8 (addr value : Nat) (s : MachineState) : MachineState :=
  { s with writes := s.writes ++ [(addr, value % 2 ^ 8)] }

/-- `SerialPortReadRegister`: read an 8-bit 16550 register. -/
def serialPortReadRegister (cfg : Config) (base offset : Nat) (s : MachineState) :
    Nat × MachineState :=
  mmioRead8 (base + offset * cfg.pcdSerialRegisterStride) s

/-- `SerialPortWriteRegister`: write an 8-bit 16550 register. -/
def serialPortWriteRegister (cfg : Config) (base offset value : Nat) (s : MachineState) :
    MachineState :=
  mmioWrite8 (base + offset * cfg.pcdSerialRegisterStride) value s

/-- The address of the 16550 register at `offset` (base + offset × stride). -/
def regAddr (cfg : Config) (offset : Nat) : Nat :=
  cfg.miniUartRegisterBase + offset * cfg.pcdSerialRegisterStride

/-- `SerialPortWritable`: whether the hardware flow control signal allows
writing. -/
def serialPortWritable (cfg : Config) (serialRegisterBase : Nat) (s : MachineState) :
    Bool × MachineState :=
  if cfg.pcdSerialUseHardwareFlowControl then
    let p := serialPortReadRegister cfg serialRegisterBase R_UART_MSR s
    if cfg.pcdSerialDetectCable then
      ((p.1 &&& (B_UART_MSR_DSR ||| B_UART_MSR_CTS)) == (B_UART_MSR_DSR ||| B_UART_MSR_CTS), p.2)
    else
      (!((p.1 &&& (B_UART_MSR_DSR ||| B_UART_MSR_CTS)) == B_UART_MSR_DSR), p.2)
  else
    (true, s)

/-- The arithmetic of `SerialPortGetDivisor`, as a pure function of the
configured clock rate, the raw 32-bit value read from the VPU clock-divider
register, and the requested baud rate (both `PcdGet32` results and the
`SerialBaudRate` parameter are `UINT32`, hence the entry masks; the `(UINT32)`
casts of the C code appear as `% 2 ^ 32`). -/
def computeDivisor (clockRate vpuRaw serialBaudRate : Nat) : Nat :=
  let clockRate := clockRate % 2 ^ 32
  let serialBaudRate := serialBaudRate % 2 ^ 32
  let baseClockRate := clockRate * 4
  let divisor := (vpuRaw % 2 ^ 32) &&& 0xFFFFFF
  let baseClockRate := if divisor ≠ 0 then (baseClockRate <<< 12) / divisor else baseClockRate
  let num := baseClockRate % 2 ^ 32
  let den := (serialBaudRate * 16) % 2 ^ 32
  let q := num / den
  if num % den ≥ (serialBaudRate * 8) % 2 ^ 32 then (q + 1) % 2 ^ 32 else q

/-- `SerialPortGetDivisor`: read the VPU clock-divider register, then compute
the baud generator divisor. -/
def serialPortGetDivisor (cfg : Config) (serialBaudRate : Nat) (s : MachineState) :
    Nat × MachineState :=
  let p := mmioRead32 cfg.cmVpuClockDivisorAddress s
  (computeDivisor cfg.pcdSerialClockRate p.1 serialBaudRate, p.2)

/-- The one-shot hardware-variant detection that opens `SerialPortInitialize`
and `SerialPortWrite`: on the first call only, read the GPIO function-select
register and memoize whether the PL011 is pin-muxed to the console pins. -/
def ensureVariantDetected (cfg : Config) (s : MachineState) : MachineState :=
  if s.usePl011UartSet then s
  else
    let p := mmioRead32 (cfg.gpioBaseAddress + 4) s
    { p.2 with usePl011Uart := (p.1 &&& 0x0003F000) == 0x00024000,
               usePl011UartSet := true }

/-- Spin until both the transmit FIFO and the shift register are empty
(`LSR & (TEMT|TXRDY) == TEMT|TXRDY`); `none` when the fuel runs out. -/
def spinTxEmpty (cfg : Config) (base : Nat) : Nat → MachineState → Option MachineState
  | 0, _ => none
  | fuel + 1, s =>
    let p := serialPortReadRegister cfg base R_UART_LSR s
    if p.1 &&& (B_UART_LSR_TEMT ||| B_UART_LSR_TXRDY) = B_UART_LSR_TEMT ||| B_UART_LSR_TXRDY
    then some p.2
    else spinTxEmpty cfg base fuel p.2

/-- Spin until `SerialPortWritable` allows transmitting. -/
def spinWritable (cfg : Config) (base : Nat) : Nat → MachineState → Option MachineState
  | 0, _ => none
  | fuel + 1, s =>
    let p := serialPortWritable cfg base s
    if p.1 then some p.2 else spinWritable cfg base fuel p.2

/-- `SerialPortInitialize`. -/
def serialPortInitialize (cfg : Config) (env : Pl011Env) (fuel : Nat) (s : MachineState) :
    Option (Status × MachineState) :=
  let s := ensureVariantDetected cfg s
  if s.usePl011Uart then
    some (env.initStatus, s)
  else
    let base := cfg.miniUartRegisterBase
    let pd := serialPortGetDivisor cfg cfg.pcdSerialBaudRate s
    let divisor := pd.1
    let s := pd.2
    let p0 := serialPortReadRegister cfg base R_UART_LCR s
    let initialized0 := (p0.1 &&& 0x3F) == (cfg.pcdSerialLineControl &&& 0x3F)
    let p1 := serialPortReadRegister cfg base R_UART_LCR p0.2
    let s := serialPortWriteRegister cfg base R_UART_LCR (p1.1 ||| B_UART_LCR_DLAB) p1.2
    let p2 := serialPortReadRegister cfg base R_UART_BAUD_HIGH s
    let p3 := serialPortReadRegister cfg base R_UART_BAUD_LOW p2.2
    let currentDivisor := (p2.1 <<< 8) ||| p3.1
    let p4 := serialPortReadRegister cfg base R_UART_LCR p3.2
    let s := serialPortWriteRegister cfg base R_UART_LCR (p4.1 &&& 0x7F) p4.2
    if initialized0 && (currentDivisor == divisor) then
      some (Status.success, s)
    else
      match spinTxEmpty cfg base fuel s with
      | none => none
      | some s =>
        let s := serialPortWriteRegister cfg base R_UART_LCR B_UART_LCR_DLAB s
        let s := serialPortWriteRegister cfg base R_UART_BAUD_HIGH (divisor >>> 8) s
        let s := serialPortWriteRegister cfg base R_UART_BAUD_LOW (divisor &&& 0xff) s
        let s := serialPortWriteRegister cfg base R_UART_LCR (cfg.pcdSerialLineControl &&& 0x3F) s
        let s := serialPortWriteRegister cfg base R_UART_FCR 0x00 s
        let s := serialPortWriteRegister cfg base R_UART_FCR
          (cfg.pcdSerialFifoControl &&& (B_UART_FCR_FIFOE ||| B_UART_FCR_FIFO64)) s
        let s := serialPortWriteRegister cfg base R_UART_IER 0x00 s
        let s := serialPortWriteRegister cfg base R_UART_MCR 0x00 s
        some (Status.success, s)

/-- The effective Tx FIFO size computed at the top of `SerialPortWrite`. -/
def serialPortFifoSize (cfg : Config) : Nat :=
  if cfg.pcdSerialFifoControl &&& B_UART_FCR_FIFOE ≠ 0 then
    if cfg.pcdSerialFifoControl &&& B_UART_FCR_FIFO64 = 0 then 16
    else cfg.pcdSerialExtendedTxFifoSize
  else 1

/-- The inner `for` loop of `SerialPortWrite`: fill up to `k` FIFO slots (or
until the remaining count `n` is exhausted), spinning on flow control before
each byte.  Returns the remaining count, the new buffer index, and the state. -/
def writeFifoFill (cfg : Config) (base : Nat) (buf : Nat → Nat) (fuel : Nat) :
    Nat → Nat → Nat → MachineState → Option (Nat × Nat × MachineState)
  | 0, n, pos, s => some (n, pos, s)
  | _ + 1, 0, pos, s => some (0, pos, s)
  | k + 1, n + 1, pos, s =>
    match spinWritable cfg base fuel s with
    | none => none
    | some s =>
      let s := serialPortWriteRegister cfg base R_UART_TXBUF (buf pos) s
      writeFifoFill cfg base buf fuel k n (pos + 1) s

/-- The outer `while (NumberOfBytes != 0)` loop of `SerialPortWrite`. -/
def writeLoop (cfg : Config) (base : Nat) (buf : Nat → Nat) (fifoSize : Nat) :
    Nat → Nat → Nat → MachineState → Option MachineState
  | 0, n, _, s => if n = 0 then some s else none
  | fuel + 1, n, pos, s =>
    if n = 0 then some s
    else
      match spinTxEmpty cfg base fuel s with
      | none => none
      | some s =>
        match writeFifoFill cfg base buf fuel fifoSize n pos s with
        | none => none
        | some r => writeLoop cfg base buf fifoSize fuel r.1 r.2.1 r.2.2

/-- `SerialPortWrite`.  `buffer = none` models a NULL `Buffer`; a non-null
buffer is the byte at each index. -/
def serialPortWrite (cfg : Config) (env : Pl011Env) (buffer : Option (Nat → Nat))
    (numberOfBytes fuel : Nat) (s : MachineState) : Option (Nat × MachineState) :=
  let s := ensureVariantDetected cfg s
  if s.usePl011Uart then
    some (env.writeResult, s)
  else
    match buffer with
    | none => some (0, s)
    | some buf =>
      let base := cfg.miniUartRegisterBase
      if numberOfBytes = 0 then
        match spinTxEmpty cfg base fuel s with
        | none => none
        | some s =>
          match spinWritable cfg base fuel s with
          | none => none
          | some s => some (0, s)
      else
        let fifoSize := serialPortFifoSize cfg
        match writeLoop cfg base buf fifoSize fuel numberOfBytes 0 s with
        | none => none
        | some s => some (numberOfBytes, s)

/-- The `while ((LSR & RXRDY) == 0)` wait of `SerialPortRead`: while no data
is ready, assert RTS (when hardware flow control is enabled) to invite the
peer to send. -/
def spinRxReady (cfg : Config) (base mcr : Nat) : Nat → MachineState → Option MachineState
  | 0, _ => none
  | fuel + 1, s =>
    let p := serialPortReadRegister cfg base R_UART_LSR s
    if p.1 &&& B_UART_LSR_RXRDY = 0 then
      let s := if cfg.pcdSerialUseHardwareFlowControl then
                 serialPortWriteRegister cfg base R_UART_MCR (mcr ||| B_UART_MCR_RTS) p.2
               else p.2
      spinRxReady cfg base mcr fuel s
    else some p.2

/-- The per-byte loop of `SerialPortRead`; the bytes read are accumulated
(the model of storing through `Buffer`). -/
def readLoop (cfg : Config) (base mcr fuel : Nat) :
    Nat → Nat → List Nat → MachineState → Option (Nat × List Nat × MachineState)
  | 0, result, acc, s => some (result, acc, s)
  | n + 1, result, acc, s =>
    match spinRxReady cfg base mcr fuel s with
    | none => none
    | some s =>
      let s := if cfg.pcdSerialUseHardwareFlowControl then
                 serialPortWriteRegister cfg base R_UART_MCR mcr s
               else s
      let p := serialPortReadRegister cfg base R_UART_RXBUF s
      readLoop cfg base mcr fuel n (result + 1) (acc ++ [p.1]) p.2

/-- `SerialPortRead`.  `buffer = none` models a NULL `Buffer`.  Note that,
unlike `SerialPortInitialize` and `SerialPortWrite`, this function performs
no variant detection: it branches on the memoized flag directly. -/
def serialPortRead (cfg : Config) (env : Pl011Env) (buffer : Option Unit)
    (numberOfBytes fuel : Nat) (s : MachineState) :
    Option (Nat × List Nat × MachineState) :=
  if s.usePl011Uart then
    some (env.readCountResult, env.readBytesResult, s)
  else
    match buffer with
    | none => some (0, [], s)
    | some _ =>
      let base := cfg.miniUartRegisterBase
      let p := serialPortReadRegister cfg base R_UART_MCR s
      let mcr := p.1 &&& 0xFD
      readLoop cfg base mcr fuel numberOfBytes 0 [] p.2

/-- `SerialPortPoll`.  No variant detection here either. -/
def serialPortPoll (cfg : Config) (env : Pl011Env) (s : MachineState) :
    Bool × MachineState :=
  if s.usePl011Uart then
    (env.pollResult, s)
  else
    let base := cfg.miniUartRegisterBase
    let p := serialPortReadRegister cfg base R_UART_LSR s
    if p.1 &&& B_UART_LSR_RXRDY ≠ 0 then
      let s := if cfg.pcdSerialUseHardwareFlowControl then
                 let q := serialPortReadRegister cfg base R_UART_MCR p.2
                 serialPortWriteRegister cfg base R_UART_MCR (q.1 &&& 0xFD) q.2
               else p.2
      (true, s)
    else
      let s := if cfg.pcdSerialUseHardwareFlowControl then
                 let q := serialPortReadRegister cfg base R_UART_MCR p.2
                 serialPortWriteRegister cfg base R_UART_MCR (q.1 ||| B_UART_MCR_RTS) q.2
               else p.2
      (false, s)

/-- `SerialPortSetControl`.  No variant detection. -/
def serialPortSetControl (cfg : Config) (env : Pl011Env) (control : Nat) (s : MachineState) :
    Status × MachineState :=
  if s.usePl011Uart then
    (env.setControlStatus, s)
  else
    let control := control % 2 ^ 32
    if control &&& (0xFFFFFFFF ^^^ (EFI_SERIAL_REQUEST_TO_SEND |||
        EFI_SERIAL_DATA_TERMINAL_READY |||
        EFI_SERIAL_HARDWARE_FLOW_CONTROL_ENABLE)) ≠ 0 then
      (Status.unsupported, s)
    else
      let base := cfg.miniUartRegisterBase
      let p := serialPortReadRegister cfg base R_UART_MCR s
      let mcr := p.1 &&& 0xFC
      let mcr := if control &&& EFI_SERIAL_DATA_TERMINAL_READY == EFI_SERIAL_DATA_TERMINAL_READY
                 then mcr ||| B_UART_MCR_DTRC else mcr
      let mcr := if control &&& EFI_SERIAL_REQUEST_TO_SEND == EFI_SERIAL_REQUEST_TO_SEND
                 then mcr ||| B_UART_MCR_RTS else mcr
      let s := serialPortWriteRegister cfg base R_UART_MCR mcr p.2
      (Status.success, s)

/-- `SerialPortGetControl`.  No variant detection. -/
def serialPortGetControl (cfg : Config) (env : Pl011Env) (s : MachineState) :
    Status × Nat × MachineState :=
  if s.usePl011Uart then
    (env.getControlStatus, env.getControlValue, s)
  else
    let base := cfg.miniUartRegisterBase
    let control := 0
    let pm := serialPortReadRegister cfg base R_UART_MSR s
    let control := if pm.1 &&& B_UART_MSR_CTS == B_UART_MSR_CTS
                   then control ||| EFI_SERIAL_CLEAR_TO_SEND else control
    let control := if pm.1 &&& B_UART_MSR_DSR == B_UART_MSR_DSR
                   then control ||| EFI_SERIAL_DATA_SET_READY else control
    let control := if pm.1 &&& B_UART_MSR_RI == B_UART_MSR_RI
                   then control ||| EFI_SERIAL_RING_INDICATE else control
    let control := if pm.1 &&& B_UART_MSR_DCD == B_UART_MSR_DCD
                   then control ||| EFI_SERIAL_CARRIER_DETECT else control
    let pc := serialPortReadRegister cfg base R_UART_MCR pm.2
    let control := if pc.1 &&& B_UART_MCR_DTRC == B_UART_MCR_DTRC
                   then control ||| EFI_SERIAL_DATA_TERMINAL_READY else control
    let control := if pc.1 &&& B_UART_MCR_RTS == B_UART_MCR_RTS
                   then control ||| EFI_SERIAL_REQUEST_TO_SEND else control
    let control := if cfg.pcdSerialUseHardwareFlowControl
                   then control ||| EFI_SERIAL_HARDWARE_FLOW_CONTROL_ENABLE else control
    let pl := serialPortReadRegister cfg base R_UART_LSR pc.2
    let control := if pl.1 &&& (B_UART_LSR_TEMT ||| B_UART_LSR_TXRDY) ==
                      (B_UART_LSR_TEMT ||| B_UART_LSR_TXRDY)
                   then control ||| EFI_SERIAL_OUTPUT_BUFFER_EMPTY else control
    let control := if pl.1 &&& B_UART_LSR_RXRDY == 0
                   then control ||| EFI_SERIAL_INPUT_BUFFER_EMPTY else control
    (Status.success, control, pl.2)

/-- The result of `SerialPortSetAttributes`: the status, the six in/out
parameters as left on return, and the machine state. -/
@[ext]
structure SetAttrResult where
  status : Status
  baudRate : Nat
  receiveFifoDepth : Nat
  timeout : Nat
  parity : Nat
  dataBits : Nat
  stopBits : Nat
  state : MachineState

/-- The tail of `SerialPortSetAttributes` after all validation: compute the
divisor and program it under the latch, then write the packed line-control
byte with the latch cleared. -/
def setAttributesFinish (cfg : Config) (serialBaudRate lcrData lcrParity lcrStop : Nat)
    (baudRate receiveFifoDepth timeout parity dataBits stopBits : Nat)
    (s : MachineState) : SetAttrResult :=
  let base := cfg.miniUartRegisterBase
  let pd := serialPortGetDivisor cfg serialBaudRate s
  let divisor := pd.1
  let s := serialPortWriteRegister cfg base R_UART_LCR B_UART_LCR_DLAB pd.2
  let s := serialPortWriteRegister cfg base R_UART_BAUD_HIGH (divisor >>> 8) s
  let s := serialPortWriteRegister cfg base R_UART_BAUD_LOW (divisor &&& 0xff) s
  let lcr := (lcrParity <<< 3) ||| (lcrStop <<< 2) ||| lcrData
  let s := serialPortWriteRegister cfg base R_UART_LCR (lcr &&& 0x3F) s
  { status := Status.success, baudRate := baudRate, receiveFifoDepth := receiveFifoDepth,
    timeout := timeout, parity := parity, dataBits := dataBits, stopBits := stopBits,
    state := s }

/-- The stop-bits stage of `SerialPortSetAttributes`. -/
def setAttributesStopBits (cfg : Config) (serialBaudRate lcrData lcrParity : Nat)
    (baudRate receiveFifoDepth timeout parity dataBits stopBits : Nat)
    (s : MachineState) : SetAttrResult :=
  if stopBits = DefaultStopBits then
    let lcrStop := (cfg.pcdSerialLineControl >>> 2) &&& 0x1
    let stopBits := if lcrStop = 0 then OneStopBit
                    else if lcrStop = 1 then
                      (if dataBits = 5 then OneFiveStopBits else TwoStopBits)
                    else stopBits
    setAttributesFinish cfg serialBaudRate lcrData lcrParity lcrStop
      baudRate receiveFifoDepth timeout parity dataBits stopBits s
  else if stopBits = OneStopBit then
    setAttributesFinish cfg serialBaudRate lcrData lcrParity 0
      baudRate receiveFifoDepth timeout parity dataBits stopBits s
  else if stopBits = OneFiveStopBits ∨ stopBits = TwoStopBits then
    setAttributesFinish cfg serialBaudRate lcrData lcrParity 1
      baudRate receiveFifoDepth timeout parity dataBits stopBits s
  else
    { status := Status.invalidParameter, baudRate := baudRate,
      receiveFifoDepth := receiveFifoDepth, timeout := timeout, parity := parity,
      dataBits := dataBits, stopBits := stopBits, state := s }

/-- The parity stage of `SerialPortSetAttributes`. -/
def setAttributesParity (cfg : Config) (serialBaudRate lcrData : Nat)
    (baudRate receiveFifoDepth timeout parity dataBits stopBits : Nat)
    (s : MachineState) : SetAttrResult :=
  if parity = DefaultParity then
    let lcrParity := (cfg.pcdSerialLineControl >>> 3) &&& 0x7
    let parity := if lcrParity = 0 then NoParity
                  else if lcrParity = 3 then EvenParity
                  else if lcrParity = 1 then OddParity
                  else if lcrParity = 7 then SpaceParity
                  else if lcrParity = 5 then MarkParity
                  else parity
    setAttributesStopBits cfg serialBaudRate lcrData lcrParity
      baudRate receiveFifoDepth timeout parity dataBits stopBits s
  else if parity = NoParity then
    setAttributesStopBits cfg serialBaudRate lcrData 0
      baudRate receiveFifoDepth timeout parity dataBits stopBits s
  else if parity = EvenParity then
    setAttributesStopBits cfg serialBaudRate lcrData 3
      baudRate receiveFifoDepth timeout parity dataBits stopBits s
  else if parity = OddParity then
    setAttributesStopBits cfg serialBaudRate lcrData 1
      baudRate receiveFifoDepth timeout parity dataBits stopBits s
  else if parity = SpaceParity then
    setAttributesStopBits cfg serialBaudRate lcrData 7
      baudRate receiveFifoDepth timeout parity dataBits stopBits s
  else if parity = MarkParity then
    setAttributesStopBits cfg serialBaudRate lcrData 5
      baudRate receiveFifoDepth timeout parity dataBits stopBits s
  else
    { status := Status.invalidParameter, baudRate := baudRate,
      receiveFifoDepth := receiveFifoDepth, timeout := timeout, parity := parity,
      dataBits := dataBits, stopBits := stopBits, state := s }

/-- `SerialPortSetAttributes`.  No variant detection.  The six value
parameters model the C in/out pointers on entry; the result carries their
values on return. -/
def serialPortSetAttributes (cfg : Config) (env : Pl011Env)
    (baudRate receiveFifoDepth timeout parity dataBits stopBits : Nat)
    (s : MachineState) : SetAttrResult :=
  if s.usePl011Uart then
    { status := env.setAttrStatus, baudRate := env.setAttrBaudRate,
      receiveFifoDepth := env.setAttrFifoDepth, timeout := timeout,
      parity := env.setAttrParity, dataBits := env.setAttrDataBits,
      stopBits := env.setAttrStopBits, state := s }
  else
    let baudRate := if baudRate = 0 then cfg.pcdSerialBaudRate else baudRate
    let serialBaudRate := baudRate % 2 ^ 32
    if dataBits = 0 then
      let lcrData := cfg.pcdSerialLineControl &&& 0x3
      setAttributesParity cfg serialBaudRate lcrData
        baudRate receiveFifoDepth timeout parity (lcrData + 5) stopBits s
    else if dataBits < 5 ∨ dataBits > 8 then
      { status := Status.invalidParameter, baudRate := baudRate,
        receiveFifoDepth := receiveFifoDepth, timeout := timeout, parity := parity,
        dataBits := dataBits, stopBits := stopBits, state := s }
    else
      setAttributesParity cfg serialBaudRate (dataBits - 5)
        baudRate receiveFifoDepth timeout parity dataBits stopBits s

/-! ### Spec-side definitions (for refinement comparison)

These two follow the words of the spec (§4.2 and claim C3), not the source:
the scaled clock and an exact round-to-nearest divisor with no 32-bit
truncation.  They are compared against `computeDivisor`. -/

/-- The base clock as the spec describes it: the configured rate times 4,
scaled by the 12.12 fixed-point VPU divider when that reads nonzero. -/
def specScaledClock (clockRate vpuRaw : Nat) : Nat :=
  let c := clockRate * 4
  let d := vpuRaw &&& 0xFFFFFF
  if d ≠ 0 then (c <<< 12) / d else c

/-- Round-to-nearest divisor as the spec states it: `floor (c / (16 B))`,
incremented exactly when the remainder is at least `8 B`. -/
def specRoundDivisor (c baud : Nat) : Nat :=
  c / (baud * 16) + (if c % (baud * 16) ≥ baud * 8 then 1 else 0)

end DualSerialPortLib

namespace DualSerialPortLib

/-! ### Basic state-preservation lemmas -/

/-- `SerialPortWritable` never writes and never touches the globals. -/
theorem serialPortWritable_state (cfg : Config) (base : Nat) (s : MachineState) :
    (serialPortWritable cfg base s).2.writes = s.writes ∧
    (serialPortWritable cfg base s).2.readFn = s.readFn ∧
    (serialPortWritable cfg base s).2.usePl011Uart = s.usePl011Uart ∧
    (serialPortWritable cfg base s).2.usePl011UartSet = s.usePl011UartSet := by
  unfold serialPortWritable serialPortReadRegister mmioRead8
  split
  · split <;> exact ⟨rfl, rfl, rfl, rfl⟩
  · exact ⟨rfl, rfl, rfl, rfl⟩

/-- The transmitter-empty spin only reads: the write log, the oracle and the
globals come out unchanged. -/
theorem spinTxEmpty_some {cfg : Config} {base : Nat} :
    ∀ {fuel : Nat} {s s' : MachineState}, spinTxEmpty cfg base fuel s = some s' →
      s'.writes = s.writes ∧ s'.readFn = s.readFn ∧
      s'.usePl011Uart = s.usePl011Uart ∧ s'.usePl011UartSet = s.usePl011UartSet := by
  intro fuel
  induction fuel with
  | zero => intro s s' h; simp [spinTxEmpty] at h
  | succ n ih =>
    intro s s' h
    simp only [spinTxEmpty, serialPortReadRegister, mmioRead8] at h
    split at h
    · cases h; exact ⟨rfl, rfl, rfl, rfl⟩
    · have h2 := ih h
      exact h2

/-- The flow-control spin only reads. -/
theorem spinWritable_some {cfg : Config} {base : Nat} :
    ∀ {fuel : Nat} {s s' : MachineState}, spinWritable cfg base fuel s = some s' →
      s'.writes = s.writes ∧ s'.readFn = s.readFn ∧
      s'.usePl011Uart = s.usePl011Uart ∧ s'.usePl011UartSet = s.usePl011UartSet := by
  intro fuel
  induction fuel with
  | zero => intro s s' h; simp [spinWritable] at h
  | succ n ih =>
    intro s s' h
    simp only [spinWritable] at h
    split at h
    · cases h
      exact serialPortWritable_state cfg base _
    · have h1 := serialPortWritable_state cfg base s
      have h2 := ih h
      exact ⟨h2.1.trans h1.1, h2.2.1.trans h1.2.1, h2.2.2.1.trans h1.2.2.1,
             h2.2.2.2.trans h1.2.2.2⟩

/-- The receive-data-ready spin may toggle RTS but never touches the oracle
function or the globals. -/
theorem spinRxReady_some {cfg : Config} {base mcr : Nat} :
    ∀ {fuel : Nat} {s s' : MachineState}, spinRxReady cfg base mcr fuel s = some s' →
      s'.readFn = s.readFn ∧
      s'.usePl011Uart = s.usePl011Uart ∧ s'.usePl011UartSet = s.usePl011UartSet := by
  intro fuel
  induction fuel with
  | zero => intro s s' h; simp [spinRxReady] at h
  | succ n ih =>
    intro s s' h
    simp only [spinRxReady, serialPortReadRegister, mmioRead8] at h
    split at h
    · split at h
      · have h2 := ih h
        exact h2
      · have h2 := ih h
        exact h2
    · cases h; exact ⟨rfl, rfl, rfl⟩

/-- The per-byte read loop never touches the oracle function or the globals. -/
theorem readLoop_some {cfg : Config} {base mcr fuel : Nat} :
    ∀ {n result : Nat} {acc : List Nat} {s : MachineState} {r : Nat} {out : List Nat}
      {s' : MachineState}, readLoop cfg base mcr fuel n result acc s = some (r, out, s') →
      s'.readFn = s.readFn ∧
      s'.usePl011Uart = s.usePl011Uart ∧ s'.usePl011UartSet = s.usePl011UartSet := by
  intro n
  induction n with
  | zero => intro result acc s r out s' h; cases h; exact ⟨rfl, rfl, rfl⟩
  | succ n ih =>
    intro result acc s r out s' h
    simp only [readLoop] at h
    cases hsp : spinRxReady cfg base mcr fuel s with
    | none => rw [hsp] at h; cases h
    | some t =>
      rw [hsp] at h
      have h1 := spinRxReady_some hsp
      simp only [serialPortReadRegister, serialPortWriteRegister, mmioRead8, mmioWrite8] at h
      split at h
      · have h2 := ih h
        exact ⟨h2.1.trans h1.1, h2.2.1.trans h1.2.1, h2.2.2.trans h1.2.2⟩
      · have h2 := ih h
        exact ⟨h2.1.trans h1.1, h2.2.1.trans h1.2.1, h2.2.2.trans h1.2.2⟩

/-- After `ensureVariantDetected` the memoization flag is always set. -/
theorem ensureVariantDetected_set (cfg : Config) (s : MachineState) :
    (ensureVariantDetected cfg s).usePl011UartSet = true := by
  unfold ensureVariantDetected mmioRead32
  split
  · assumption
  · rfl

/-- When the variant is already memoized, detection is the identity. -/
theorem ensureVariantDetected_probed {cfg : Config} {s : MachineState}
    (h : s.usePl011UartSet = true) : ensureVariantDetected cfg s = s := by
  unfold ensureVariantDetected
  split
  · rfl
  · simp_all

/-- From the unprobed state, detection reads the GPIO function-select
register (at base + 4) once and memoizes the PL011 test on it. -/
theorem ensureVariantDetected_unprobed {cfg : Config} {s : MachineState}
    (h : s.usePl011UartSet = false) :
    ensureVariantDetected cfg s =
      { s with readCount := s.readCount + 1,
               usePl011Uart := ((s.readFn s.readCount (cfg.gpioBaseAddress + 4) % 2 ^ 32 &&&
                 0x0003F000) == 0x00024000),
               usePl011UartSet := true } := by
  unfold ensureVariantDetected mmioRead32
  split
  · simp_all
  · rfl

end DualSerialPortLib

namespace DualSerialPortLib

/-! ### Write-path characterization -/

/-- The inner FIFO-fill loop, characterized: on success it has transmitted
`n - n'` bytes, appending exactly those transmit-buffer writes to the log,
and it never touches the oracle function or the globals. -/
theorem writeFifoFill_some {cfg : Config} {base : Nat} {buf : Nat → Nat} {fuel : Nat} :
    ∀ {k n pos : Nat} {s : MachineState} {n' pos' : Nat} {s' : MachineState},
      writeFifoFill cfg base buf fuel k n pos s = some (n', pos', s') →
      n' ≤ n ∧ pos' = pos + (n - n') ∧
      s'.writes = s.writes ++ (List.range (n - n')).map
        (fun i => (base + R_UART_TXBUF * cfg.pcdSerialRegisterStride, buf (pos + i) % 2 ^ 8)) ∧
      s'.readFn = s.readFn ∧
      s'.usePl011Uart = s.usePl011Uart ∧ s'.usePl011UartSet = s.usePl011UartSet := by
  intro k
  induction k with
  | zero =>
    intro n pos s n' pos' s' h
    cases h
    simp
  | succ k ih =>
    intro n pos s n' pos' s' h
    match n, h with
    | 0, h =>
      cases h
      simp
    | n + 1, h =>
      simp only [writeFifoFill] at h
      cases hsp : spinWritable cfg base fuel s with
      | none => rw [hsp] at h; cases h
      | some t =>
        rw [hsp] at h
        have hs := spinWritable_some hsp
        have h2 := ih h
        obtain ⟨hle, hpos, hw, hrf, hu, hus⟩ := h2
        refine ⟨Nat.le_succ_of_le hle, ?_, ?_, ?_, ?_, ?_⟩
        · omega
        · rw [hw]
          simp only [serialPortWriteRegister, mmioWrite8, hs.1]
          have hrange : n + 1 - n' = (n - n') + 1 := by omega
          rw [hrange, List.range_succ_eq_map]
          simp [List.map_map, Function.comp, List.append_assoc]
          intro a ha
          have hpa : pos + 1 + a = pos + (a + 1) := by omega
          rw [hpa]
        · simp only [serialPortWriteRegister, mmioWrite8] at hrf
          exact hrf.trans hs.2.1
        · exact hu.trans hs.2.2.1
        · exact hus.trans hs.2.2.2

end DualSerialPortLib

namespace DualSerialPortLib

/-- The outer write loop, characterized: on success it has appended exactly
the transmit-buffer writes of the `n` bytes starting at `pos`, and preserves
the oracle and globals. -/
theorem writeLoop_some {cfg : Config} {base : Nat} {buf : Nat → Nat} {fifoSize : Nat} :
    ∀ {fuel n pos : Nat} {s s' : MachineState},
      writeLoop cfg base buf fifoSize fuel n pos s = some s' →
      s'.writes = s.writes ++ (List.range n).map
        (fun i => (base + R_UART_TXBUF * cfg.pcdSerialRegisterStride, buf (pos + i) % 2 ^ 8)) ∧
      s'.readFn = s.readFn ∧
      s'.usePl011Uart = s.usePl011Uart ∧ s'.usePl011UartSet = s.usePl011UartSet := by
  intro fuel
  induction fuel with
  | zero =>
    intro n pos s s' h
    simp only [writeLoop] at h
    split at h
    · cases h; simp_all
    · cases h
  | succ fuel ih =>
    intro n pos s s' h
    simp only [writeLoop] at h
    split at h
    · cases h; simp_all
    · cases hsp : spinTxEmpty cfg base fuel s with
      | none => rw [hsp] at h; cases h
      | some t =>
        rw [hsp] at h
        dsimp only at h
        cases hff : writeFifoFill cfg base buf fuel fifoSize n pos t with
        | none => rw [hff] at h; cases h
        | some r =>
          obtain ⟨n1, pos1, u⟩ := r
          rw [hff] at h
          dsimp only at h
          have hsp2 := spinTxEmpty_some hsp
          have hff2 := writeFifoFill_some hff
          obtain ⟨hle, hpos, huw, hurf, huu, huus⟩ := hff2
          have hih := ih h
          obtain ⟨hw, hrf, hu, hus⟩ := hih
          refine ⟨?_, hrf.trans (hurf.trans hsp2.2.1),
                  hu.trans (huu.trans hsp2.2.2.1), hus.trans (huus.trans hsp2.2.2.2)⟩
          rw [hw, huw, hsp2.1, hpos]
          have hn : n = (n - n1) + n1 := by omega
          rw [List.append_assoc]
          congr 1
          conv_rhs => rw [hn]
          rw [List.range_add, List.map_append, List.map_map]
          congr 1
          apply List.map_congr_left
          intro i _
          simp only [Function.comp]
          have hx : pos + (n - n1) + i = pos + (n - n1 + i) := by omega
          rw [hx]

end DualSerialPortLib

namespace DualSerialPortLib

/-! ### Flag behaviour of every public operation -/

/-- `SerialPortWrite` on success: the memoized-variant flags come out as
`ensureVariantDetected` leaves them (detection runs first, nothing after
touches them). -/
theorem serialPortWrite_some_flags {cfg : Config} {env : Pl011Env}
    {buffer : Option (Nat → Nat)} {n fuel : Nat} {s : MachineState} {r : Nat}
    {s' : MachineState} (h : serialPortWrite cfg env buffer n fuel s = some (r, s')) :
    s'.usePl011Uart = (ensureVariantDetected cfg s).usePl011Uart ∧
    s'.usePl011UartSet = (ensureVariantDetected cfg s).usePl011UartSet := by
  unfold serialPortWrite at h
  revert h
  generalize ensureVariantDetected cfg s = t
  intro h
  dsimp only at h
  split at h
  · cases h; exact ⟨rfl, rfl⟩
  · split at h
    · cases h; exact ⟨rfl, rfl⟩
    · split at h
      · split at h
        · cases h
        · rename_i u heq
          split at h
          · cases h
          · rename_i v heq2
            cases h
            have h1 := spinTxEmpty_some heq
            have h2 := spinWritable_some heq2
            exact ⟨h2.2.2.1.trans h1.2.2.1, h2.2.2.2.trans h1.2.2.2⟩
      · split at h
        · cases h
        · rename_i u heq
          cases h
          have h1 := writeLoop_some heq
          exact ⟨h1.2.2.1, h1.2.2.2⟩

/-- `SerialPortInitialize` on success: the flags come out as
`ensureVariantDetected` leaves them. -/
theorem serialPortInitialize_some_flags {cfg : Config} {env : Pl011Env}
    {fuel : Nat} {s : MachineState} {st : Status} {s' : MachineState}
    (h : serialPortInitialize cfg env fuel s = some (st, s')) :
    s'.usePl011Uart = (ensureVariantDetected cfg s).usePl011Uart ∧
    s'.usePl011UartSet = (ensureVariantDetected cfg s).usePl011UartSet := by
  unfold serialPortInitialize at h
  revert h
  generalize ensureVariantDetected cfg s = t
  intro h
  dsimp only at h
  split at h
  · cases h; exact ⟨rfl, rfl⟩
  · split at h
    · cases h; exact ⟨rfl, rfl⟩
    · split at h
      · cases h
      · rename_i u heq
        cases h
        have h1 := spinTxEmpty_some heq
        simp only [serialPortWriteRegister, serialPortReadRegister, serialPortGetDivisor,
          mmioRead8, mmioRead32, mmioWrite8] at h1 ⊢
        exact ⟨h1.2.2.1, h1.2.2.2⟩

end DualSerialPortLib

namespace DualSerialPortLib

/-- `SerialPortRead` performs no variant detection: on success the flags are
unchanged. -/
theorem serialPortRead_some_flags {cfg : Config} {env : Pl011Env}
    {buffer : Option Unit} {n fuel : Nat} {s : MachineState} {r : Nat}
    {out : List Nat} {s' : MachineState}
    (h : serialPortRead cfg env buffer n fuel s = some (r, out, s')) :
    s'.usePl011Uart = s.usePl011Uart ∧ s'.usePl011UartSet = s.usePl011UartSet := by
  unfold serialPortRead at h
  split at h
  · cases h; exact ⟨rfl, rfl⟩
  · split at h
    · cases h; exact ⟨rfl, rfl⟩
    · dsimp only at h
      have h1 := readLoop_some h
      simp only [serialPortReadRegister, mmioRead8] at h1
      exact ⟨h1.2.1, h1.2.2⟩

/-- `SerialPortPoll` performs no variant detection: the flags are unchanged. -/
theorem serialPortPoll_flags (cfg : Config) (env : Pl011Env) (s : MachineState) :
    (serialPortPoll cfg env s).2.usePl011Uart = s.usePl011Uart ∧
    (serialPortPoll cfg env s).2.usePl011UartSet = s.usePl011UartSet := by
  unfold serialPortPoll serialPortReadRegister serialPortWriteRegister mmioRead8 mmioWrite8
  split
  · exact ⟨rfl, rfl⟩
  · dsimp only
    split
    · split <;> exact ⟨rfl, rfl⟩
    · split <;> exact ⟨rfl, rfl⟩

/-- `SerialPortGetControl` performs no variant detection: the flags are
unchanged. -/
theorem serialPortGetControl_flags (cfg : Config) (env : Pl011Env) (s : MachineState) :
    (serialPortGetControl cfg env s).2.2.usePl011Uart = s.usePl011Uart ∧
    (serialPortGetControl cfg env s).2.2.usePl011UartSet = s.usePl011UartSet := by
  unfold serialPortGetControl serialPortReadRegister mmioRead8
  split
  · exact ⟨rfl, rfl⟩
  · exact ⟨rfl, rfl⟩

/-- `SerialPortSetControl` performs no variant detection: the flags are
unchanged. -/
theorem serialPortSetControl_flags (cfg : Config) (env : Pl011Env) (control : Nat)
    (s : MachineState) :
    (serialPortSetControl cfg env control s).2.usePl011Uart = s.usePl011Uart ∧
    (serialPortSetControl cfg env control s).2.usePl011UartSet = s.usePl011UartSet := by
  unfold serialPortSetControl serialPortReadRegister serialPortWriteRegister mmioRead8 mmioWrite8
  split
  · exact ⟨rfl, rfl⟩
  · dsimp only
    split
    · exact ⟨rfl, rfl⟩
    · exact ⟨rfl, rfl⟩

/-- `setAttributesFinish`, characterized completely: success status, the
in/out values passed through, one VPU-register read, and exactly the four
programming writes (latch enable, divisor high, divisor low, masked
line-control byte). -/
theorem setAttributesFinish_spec (cfg : Config) (sbr ld lp ls b f t p d sb : Nat)
    (s : MachineState) :
    setAttributesFinish cfg sbr ld lp ls b f t p d sb s =
      { status := Status.success, baudRate := b, receiveFifoDepth := f, timeout := t,
        parity := p, dataBits := d, stopBits := sb,
        state := { s with
          readCount := s.readCount + 1,
          writes := s.writes ++
            [(regAddr cfg R_UART_LCR, B_UART_LCR_DLAB % 2 ^ 8),
             (regAddr cfg R_UART_BAUD_HIGH,
              (computeDivisor cfg.pcdSerialClockRate
                  (s.readFn s.readCount cfg.cmVpuClockDivisorAddress % 2 ^ 32) sbr >>> 8) % 2 ^ 8),
             (regAddr cfg R_UART_BAUD_LOW,
              (computeDivisor cfg.pcdSerialClockRate
                  (s.readFn s.readCount cfg.cmVpuClockDivisorAddress % 2 ^ 32) sbr &&& 0xff) % 2 ^ 8),
             (regAddr cfg R_UART_LCR,
              (((lp <<< 3) ||| (ls <<< 2) ||| ld) &&& 0x3F) % 2 ^ 8)] } } := by
  unfold setAttributesFinish serialPortGetDivisor serialPortWriteRegister mmioWrite8 mmioRead32
    regAddr
  dsimp only
  simp only [SetAttrResult.mk.injEq, MachineState.mk.injEq, List.append_assoc,
    List.singleton_append, List.cons_append, List.nil_append, and_true, true_and]

/-- `setAttributesFinish` keeps the flags unchanged. -/
theorem setAttributesFinish_flags (cfg : Config) (sbr ld lp ls b f t p d sb : Nat)
    (s : MachineState) :
    (setAttributesFinish cfg sbr ld lp ls b f t p d sb s).state.usePl011Uart = s.usePl011Uart ∧
    (setAttributesFinish cfg sbr ld lp ls b f t p d sb s).state.usePl011UartSet =
      s.usePl011UartSet := by
  rw [setAttributesFinish_spec]
  exact ⟨rfl, rfl⟩

/-- The stop-bits stage keeps the flags unchanged. -/
theorem setAttributesStopBits_flags (cfg : Config) (sbr ld lp b f t p d sb : Nat)
    (s : MachineState) :
    (setAttributesStopBits cfg sbr ld lp b f t p d sb s).state.usePl011Uart = s.usePl011Uart ∧
    (setAttributesStopBits cfg sbr ld lp b f t p d sb s).state.usePl011UartSet =
      s.usePl011UartSet := by
  unfold setAttributesStopBits
  split
  · dsimp only
    exact setAttributesFinish_flags ..
  · split
    · exact setAttributesFinish_flags ..
    · split
      · exact setAttributesFinish_flags ..
      · exact ⟨rfl, rfl⟩

/-- The parity stage keeps the flags unchanged. -/
theorem setAttributesParity_flags (cfg : Config) (sbr ld b f t p d sb : Nat)
    (s : MachineState) :
    (setAttributesParity cfg sbr ld b f t p d sb s).state.usePl011Uart = s.usePl011Uart ∧
    (setAttributesParity cfg sbr ld b f t p d sb s).state.usePl011UartSet =
      s.usePl011UartSet := by
  unfold setAttributesParity
  split
  · dsimp only
    exact setAttributesStopBits_flags ..
  · split
    · exact setAttributesStopBits_flags ..
    · split
      · exact setAttributesStopBits_flags ..
      · split
        · exact setAttributesStopBits_flags ..
        · split
          · exact setAttributesStopBits_flags ..
          · split
            · exact setAttributesStopBits_flags ..
            · exact ⟨rfl, rfl⟩

/-- The state left by `serialPortSetAttributes` keeps the flags unchanged. -/
theorem serialPortSetAttributes_flags (cfg : Config) (env : Pl011Env)
    (b f t p d sb : Nat) (s : MachineState) :
    (serialPortSetAttributes cfg env b f t p d sb s).state.usePl011Uart = s.usePl011Uart ∧
    (serialPortSetAttributes cfg env b f t p d sb s).state.usePl011UartSet =
      s.usePl011UartSet := by
  unfold serialPortSetAttributes
  split
  · exact ⟨rfl, rfl⟩
  · dsimp only
    split
    · exact setAttributesParity_flags ..
    · split
      · exact ⟨rfl, rfl⟩
      · exact setAttributesParity_flags ..

end DualSerialPortLib

namespace DualSerialPortLib

/-! ### Invalid-input behaviour of SetAttributes (helper lemmas) -/

/-- An unrecognized parity enum value fails at the parity stage with no state
change. -/
theorem setAttributesParity_invalid (cfg : Config) (sbr ld b f t par d sb : Nat)
    (s : MachineState) (h : 5 < par) :
    setAttributesParity cfg sbr ld b f t par d sb s =
      { status := Status.invalidParameter, baudRate := b, receiveFifoDepth := f,
        timeout := t, parity := par, dataBits := d, stopBits := sb, state := s } := by
  unfold setAttributesParity
  rw [if_neg (show ¬(par = DefaultParity) by unfold DefaultParity; omega),
      if_neg (show ¬(par = NoParity) by unfold NoParity; omega),
      if_neg (show ¬(par = EvenParity) by unfold EvenParity; omega),
      if_neg (show ¬(par = OddParity) by unfold OddParity; omega),
      if_neg (show ¬(par = SpaceParity) by unfold SpaceParity; omega),
      if_neg (show ¬(par = MarkParity) by unfold MarkParity; omega)]

/-- An unrecognized stop-bits enum value fails at the stop-bits stage with no
state change. -/
theorem setAttributesStopBits_invalid (cfg : Config) (sbr ld lp b f t p d sb : Nat)
    (s : MachineState) (h : 3 < sb) :
    setAttributesStopBits cfg sbr ld lp b f t p d sb s =
      { status := Status.invalidParameter, baudRate := b, receiveFifoDepth := f,
        timeout := t, parity := p, dataBits := d, stopBits := sb, state := s } := by
  unfold setAttributesStopBits
  rw [if_neg (show ¬(sb = DefaultStopBits) by unfold DefaultStopBits; omega),
      if_neg (show ¬(sb = OneStopBit) by unfold OneStopBit; omega),
      if_neg (show ¬(sb = OneFiveStopBits ∨ sb = TwoStopBits) by
        unfold OneFiveStopBits TwoStopBits; omega)]

/-- With an unrecognized stop-bits value, the parity stage (whatever branch it
takes) ends in `invalidParameter` with the state untouched. -/
theorem setAttributesParity_stopInvalid (cfg : Config) (sbr ld b f t par d sb : Nat)
    (s : MachineState) (h : 3 < sb) :
    (setAttributesParity cfg sbr ld b f t par d sb s).status = Status.invalidParameter ∧
    (setAttributesParity cfg sbr ld b f t par d sb s).state = s := by
  unfold setAttributesParity
  split_ifs <;>
    first
    | exact ⟨rfl, rfl⟩
    | (rw [setAttributesStopBits_invalid cfg sbr ld _ _ f t _ _ sb s h]
       exact ⟨rfl, rfl⟩)

/-- Any of the three validation failures of `SerialPortSetAttributes` (data
bits outside 5..8, unrecognized parity, unrecognized stop bits) yields
`invalidParameter` and leaves the machine state exactly as it was. -/
theorem serialPortSetAttributes_invalid (cfg : Config) (env : Pl011Env)
    (baud fifo timeout par db sb : Nat) (s : MachineState)
    (hmini : s.usePl011Uart = false)
    (hbad : (db ≠ 0 ∧ (db < 5 ∨ 8 < db)) ∨ 5 < par ∨ 3 < sb) :
    (serialPortSetAttributes cfg env baud fifo timeout par db sb s).status =
        Status.invalidParameter ∧
    (serialPortSetAttributes cfg env baud fifo timeout par db sb s).state = s := by
  unfold serialPortSetAttributes
  rw [if_neg (show ¬(s.usePl011Uart = true) by simp [hmini])]
  dsimp only
  rcases hbad with ⟨hdb0, hdbr⟩ | hpar | hsb
  · rw [if_neg hdb0, if_pos hdbr]
    exact ⟨rfl, rfl⟩
  · by_cases hdb0 : db = 0
    · rw [if_pos hdb0, setAttributesParity_invalid _ _ _ _ _ _ _ _ _ _ hpar]
      exact ⟨rfl, rfl⟩
    · by_cases hdbr : db < 5 ∨ 8 < db
      · rw [if_neg hdb0, if_pos hdbr]
        exact ⟨rfl, rfl⟩
      · rw [if_neg hdb0, if_neg hdbr, setAttributesParity_invalid _ _ _ _ _ _ _ _ _ _ hpar]
        exact ⟨rfl, rfl⟩
  · by_cases hdb0 : db = 0
    · rw [if_pos hdb0]
      exact setAttributesParity_stopInvalid _ _ _ _ _ _ _ _ _ _ hsb
    · by_cases hdbr : db < 5 ∨ 8 < db
      · rw [if_neg hdb0, if_pos hdbr]
        exact ⟨rfl, rfl⟩
      · rw [if_neg hdb0, if_neg hdbr]
        exact setAttributesParity_stopInvalid _ _ _ _ _ _ _ _ _ _ hsb

end DualSerialPortLib

namespace DualSerialPortLib

/-! ### Concrete fixtures used by witnesses and counterexamples -/

/-- A small concrete configuration (flow control off, 16-byte FIFO,
1.8432 MHz clock, 115200 baud, 8-n-1 line control = 0x03, stride 1). -/
def cfgW : Config :=
  { pcdSerialRegisterStride := 1, pcdSerialUseHardwareFlowControl := false,
    pcdSerialDetectCable := false, pcdSerialClockRate := 1843200,
    pcdSerialBaudRate := 115200, pcdSerialLineControl := 3,
    pcdSerialFifoControl := 1, pcdSerialExtendedTxFifoSize := 64,
    gpioBaseAddress := 64, cmVpuClockDivisorAddress := 128,
    miniUartRegisterBase := 4096 }

/-- An arbitrary concrete PL011 environment. -/
def envW : Pl011Env :=
  { initStatus := Status.success, writeResult := 0, readCountResult := 0,
    readBytesResult := [], pollResult := false, setControlStatus := Status.success,
    getControlStatus := Status.success, getControlValue := 0,
    setAttrStatus := Status.success, setAttrBaudRate := 0, setAttrFifoDepth := 0,
    setAttrParity := 0, setAttrDataBits := 0, setAttrStopBits := 0 }

/-- A probed mini-UART machine state whose every register read returns 0xFF. -/
def sW : MachineState :=
  { readFn := fun _ _ => 0xFF, readCount := 0, writes := [], usePl011Uart := false,
    usePl011UartSet := true }

/-- The same state, but unprobed (the process-initial state). -/
def sWU : MachineState :=
  { readFn := fun _ _ => 0xFF, readCount := 0, writes := [], usePl011Uart := false,
    usePl011UartSet := false }

/-! ### C3 — divisor round-to-nearest -/

/-- C3, counterexample: the claim omits the `(UINT32)` truncation of the
scaled base clock.  With a configured clock rate of 2^30 Hz (so the spec-side
scaled clock is exactly 2^32) and the VPU divider register reading 0, the code
computes divisor 0 at 115200 baud while the claimed formula gives 2330. -/
theorem c3_counterexample :
    computeDivisor 1073741824 0 115200 ≠
      specRoundDivisor (specScaledClock 1073741824 0) 115200 := by
  decide

/-- C3, amended: for every baud rate `B > 0`, whenever the scaled base clock
fits in 32 bits and `16·B` does not overflow a `UINT32` (the code computes
with the scaled clock truncated to 32 bits and `16·B`, `8·B` reduced mod
2^32), `SerialPortGetDivisor`'s arithmetic equals the spec's round-to-nearest
divisor: `floor (C / (16 B))`, incremented exactly when `C mod (16 B) ≥ 8 B`,
where `C` is the clock rate times 4, scaled by `(C << 12) / D` when the VPU
divider register masked to 24 bits reads a nonzero `D`. -/
theorem c3_amended (clockRate vpuRaw baud : Nat) (hb : 0 < baud)
    (hden : baud * 16 < 2 ^ 32) (hclock : clockRate < 2 ^ 32) (hraw : vpuRaw < 2 ^ 32)
    (hfit : specScaledClock clockRate vpuRaw < 2 ^ 32) :
    computeDivisor clockRate vpuRaw baud =
      specRoundDivisor (specScaledClock clockRate vpuRaw) baud := by
  have hb32 : baud < 2 ^ 32 := by omega
  have h8 : baud * 8 < 2 ^ 32 := by omega
  unfold specScaledClock at hfit ⊢
  unfold computeDivisor specRoundDivisor
  dsimp only
  rw [Nat.mod_eq_of_lt hclock, Nat.mod_eq_of_lt hraw, Nat.mod_eq_of_lt hb32]
  set e := if vpuRaw &&& 0xFFFFFF ≠ 0 then ((clockRate * 4) <<< 12) / (vpuRaw &&& 0xFFFFFF)
           else clockRate * 4 with he
  rw [Nat.mod_eq_of_lt hfit, Nat.mod_eq_of_lt hden, Nat.mod_eq_of_lt h8]
  have hq : e / (baud * 16) + 1 < 2 ^ 32 := by
    have h1 : e / (baud * 16) ≤ e / 16 := Nat.div_le_div_left (by omega) (by norm_num)
    have h2 : e / 16 ≤ 4294967295 / 16 := Nat.div_le_div_right (by omega)
    omega
  by_cases hc : e % (baud * 16) ≥ baud * 8
  · rw [if_pos hc, if_pos hc, Nat.mod_eq_of_lt hq]
  · rw [if_neg hc, if_neg hc, Nat.add_zero]

/-- C3, witness: with a 1.8432 MHz clock (scaled clock 7372800), divider
register 0 and 115200 baud, the amended theorem applies and both sides are 4. -/
theorem c3_witness :
    0 < 115200 ∧
    computeDivisor 1843200 0 115200 =
      specRoundDivisor (specScaledClock 1843200 0) 115200 :=
  ⟨by norm_num,
   c3_amended 1843200 0 115200 (by norm_num) (by norm_num) (by norm_num) (by norm_num)
     (by decide)⟩

/-! ### C6 — flow-control writability -/

set_option maxRecDepth 8192 in
/-- For an 8-bit modem-status value, the cable-detect test of
`SerialPortWritable` is exactly "both DSR (bit 5) and CTS (bit 4) set". -/
theorem writableBitsSet : ∀ m : Fin 256,
    ((m.1 &&& (B_UART_MSR_DSR ||| B_UART_MSR_CTS) ==
      (B_UART_MSR_DSR ||| B_UART_MSR_CTS)) = true ↔
     (m.1.testBit 5 = true ∧ m.1.testBit 4 = true)) := by
  decide

set_option maxRecDepth 8192 in
/-- For an 8-bit modem-status value, the no-cable-detect test of
`SerialPortWritable` is exactly "not (DSR set and CTS clear)". -/
theorem writableBitsClear : ∀ m : Fin 256,
    ((!(m.1 &&& (B_UART_MSR_DSR ||| B_UART_MSR_CTS) == B_UART_MSR_DSR)) = true ↔
     ¬(m.1.testBit 5 = true ∧ m.1.testBit 4 = false)) := by
  decide

/-- C6: `SerialPortWritable` returns TRUE iff hardware flow control is
disabled in configuration; or cable detection is enabled and both the DSR and
CTS bits of the (freshly read) modem-status register are set; or cable
detection is disabled and it is not the case that DSR is set while CTS is
clear. -/
theorem c6_writable_iff (cfg : Config) (base : Nat) (s : MachineState) :
    (serialPortWritable cfg base s).1 = true ↔
      (cfg.pcdSerialUseHardwareFlowControl = false ∨
       (cfg.pcdSerialDetectCable = true ∧
        (s.readFn s.readCount (base + R_UART_MSR * cfg.pcdSerialRegisterStride) %
          2 ^ 8).testBit 5 = true ∧
        (s.readFn s.readCount (base + R_UART_MSR * cfg.pcdSerialRegisterStride) %
          2 ^ 8).testBit 4 = true) ∨
       (cfg.pcdSerialDetectCable = false ∧
        ¬((s.readFn s.readCount (base + R_UART_MSR * cfg.pcdSerialRegisterStride) %
            2 ^ 8).testBit 5 = true ∧
          (s.readFn s.readCount (base + R_UART_MSR * cfg.pcdSerialRegisterStride) %
            2 ^ 8).testBit 4 = false))) := by
  unfold serialPortWritable serialPortReadRegister mmioRead8
  dsimp only
  set v := s.readFn s.readCount (base + R_UART_MSR * cfg.pcdSerialRegisterStride) % 2 ^ 8
    with hv
  have hvlt : v < 256 := Nat.mod_lt _ (by norm_num)
  split
  · rename_i hfc
    split
    · rename_i hdc
      have hiff := writableBitsSet ⟨v, hvlt⟩
      simp only [hfc, hdc] at *
      simpa using hiff
    · rename_i hdc
      have hiff := writableBitsClear ⟨v, hvlt⟩
      simp only [Bool.not_eq_true] at hdc
      simp only [hfc, hdc] at *
      simpa using hiff
  · rename_i hfc
    simp only [Bool.not_eq_true] at hfc
    simp [hfc]

/-! ### C9 — NULL buffer handling -/

/-- C9: on the mini-UART path, `SerialPortWrite` with a NULL buffer returns 0
with the machine state (write log, read count, globals) exactly unchanged, and
so does `SerialPortRead`; neither asserts nor returns a distinguishable error
status. -/
theorem c9_null_buffer (cfg : Config) (env : Pl011Env) (nW nR fW fR : Nat)
    (s : MachineState) (hset : s.usePl011UartSet = true)
    (hmini : s.usePl011Uart = false) :
    serialPortWrite cfg env none nW fW s = some (0, s) ∧
    serialPortRead cfg env none nR fR s = some (0, [], s) := by
  constructor
  · unfold serialPortWrite
    rw [ensureVariantDetected_probed hset]
    rw [if_neg (show ¬(s.usePl011Uart = true) by simp [hmini])]
  · unfold serialPortRead
    rw [if_neg (show ¬(s.usePl011Uart = true) by simp [hmini])]

/-- C9, witness: the NULL-buffer behaviour at a concrete state. -/
theorem c9_witness :
    serialPortWrite cfgW envW none 3 5 sW = some (0, sW) ∧
    serialPortRead cfgW envW none 7 5 sW = some (0, [], sW) :=
  c9_null_buffer cfgW envW 3 7 5 5 sW rfl rfl

/-! ### C4 — validation before mutation -/

/-- C4: on the mini-UART path, a `SerialPortSetAttributes` call with data bits
outside 5..8, or an unrecognized parity or stop-bits enum value, returns
`RETURN_INVALID_PARAMETER` with the machine state exactly unchanged (so no
UART register was written), and a `SerialPortSetControl` call whose mask has
any bit outside {RequestToSend, DataTerminalReady, HardwareFlowControlEnable}
returns `RETURN_UNSUPPORTED` with the state exactly unchanged: validation
completes before any register mutation. -/
theorem c4_no_mutation_on_failure (cfg : Config) (env : Pl011Env)
    (baud fifo timeout par db sb control : Nat) (s : MachineState)
    (hmini : s.usePl011Uart = false)
    (hbad : (db ≠ 0 ∧ (db < 5 ∨ 8 < db)) ∨ 5 < par ∨ 3 < sb)
    (hctrl : control % 2 ^ 32 &&& 0xFFFFBFFC ≠ 0) :
    (serialPortSetAttributes cfg env baud fifo timeout par db sb s).status =
        Status.invalidParameter ∧
    (serialPortSetAttributes cfg env baud fifo timeout par db sb s).state = s ∧
    serialPortSetControl cfg env control s = (Status.unsupported, s) := by
  have h1 := serialPortSetAttributes_invalid cfg env baud fifo timeout par db sb s hmini hbad
  refine ⟨h1.1, h1.2, ?_⟩
  unfold serialPortSetControl
  rw [if_neg (show ¬(s.usePl011Uart = true) by simp [hmini])]
  dsimp only
  rw [if_pos]
  have hmask : 0xFFFFFFFF ^^^ (EFI_SERIAL_REQUEST_TO_SEND |||
      EFI_SERIAL_DATA_TERMINAL_READY ||| EFI_SERIAL_HARDWARE_FLOW_CONTROL_ENABLE) =
      0xFFFFBFFC := by decide
  rw [hmask]
  exact hctrl

/-- C4, witness: data bits 9 and a mask with bit 31 set, at a concrete state. -/
theorem c4_witness :
    (serialPortSetAttributes cfgW envW 115200 0 0 1 9 1 sW).status =
        Status.invalidParameter ∧
    (serialPortSetAttributes cfgW envW 115200 0 0 1 9 1 sW).state = sW ∧
    serialPortSetControl cfgW envW 0x80000000 sW = (Status.unsupported, sW) :=
  c4_no_mutation_on_failure cfgW envW 115200 0 0 1 9 1 0x80000000 sW rfl
    (Or.inl ⟨by norm_num, by norm_num⟩) (by decide)

end DualSerialPortLib

namespace DualSerialPortLib

/-! ### Valid-path helper lemmas for SetAttributes -/

/-- For any recognized stop-bits value (0..3), the stop-bits stage reaches the
programming tail: success, the parity out-parameter passed through, and
exactly four register writes appended. -/
theorem setAttributesStopBits_valid (cfg : Config) (sbr ld lp b f t p d sb : Nat)
    (s : MachineState) (hsb : sb ≤ 3) :
    (setAttributesStopBits cfg sbr ld lp b f t p d sb s).status = Status.success ∧
    (setAttributesStopBits cfg sbr ld lp b f t p d sb s).parity = p ∧
    (setAttributesStopBits cfg sbr ld lp b f t p d sb s).state.writes.length =
      s.writes.length + 4 := by
  unfold setAttributesStopBits
  interval_cases sb
  · rw [if_pos (show (0 : Nat) = DefaultStopBits from rfl)]
    dsimp only
    rw [setAttributesFinish_spec]
    exact ⟨rfl, rfl, by simp⟩
  · rw [if_neg (show ¬((1 : Nat) = DefaultStopBits) by unfold DefaultStopBits; omega),
        if_pos (show (1 : Nat) = OneStopBit from rfl)]
    rw [setAttributesFinish_spec]
    exact ⟨rfl, rfl, by simp⟩
  · rw [if_neg (show ¬((2 : Nat) = DefaultStopBits) by unfold DefaultStopBits; omega),
        if_neg (show ¬((2 : Nat) = OneStopBit) by unfold OneStopBit; omega),
        if_pos (Or.inl (show (2 : Nat) = OneFiveStopBits from rfl))]
    rw [setAttributesFinish_spec]
    exact ⟨rfl, rfl, by simp⟩
  · rw [if_neg (show ¬((3 : Nat) = DefaultStopBits) by unfold DefaultStopBits; omega),
        if_neg (show ¬((3 : Nat) = OneStopBit) by unfold OneStopBit; omega),
        if_pos (Or.inr (show (3 : Nat) = TwoStopBits from rfl))]
    rw [setAttributesFinish_spec]
    exact ⟨rfl, rfl, by simp⟩

/-- When the caller passes the `DefaultParity` sentinel and the configured
line-control parity field is one of the codes 2, 4, 6 (no table inverse), the
decode switch falls through: the call still succeeds with four register
writes, and the parity out-parameter keeps the sentinel. -/
theorem setAttributesParity_sentinelFallThrough (cfg : Config) (sbr ld b f t d sb : Nat)
    (s : MachineState)
    (hp : (cfg.pcdSerialLineControl >>> 3) &&& 0x7 = 2 ∨
          (cfg.pcdSerialLineControl >>> 3) &&& 0x7 = 4 ∨
          (cfg.pcdSerialLineControl >>> 3) &&& 0x7 = 6)
    (hsb : sb ≤ 3) :
    (setAttributesParity cfg sbr ld b f t DefaultParity d sb s).status = Status.success ∧
    (setAttributesParity cfg sbr ld b f t DefaultParity d sb s).parity = DefaultParity ∧
    (setAttributesParity cfg sbr ld b f t DefaultParity d sb s).state.writes.length =
      s.writes.length + 4 := by
  unfold setAttributesParity
  rw [if_pos rfl]
  dsimp only
  rcases hp with hp | hp | hp <;> rw [hp] <;> norm_num <;>
    exact setAttributesStopBits_valid cfg sbr ld _ b f t DefaultParity d sb s hsb

end DualSerialPortLib

namespace DualSerialPortLib

/-- A probed mini-UART state whose VPU-divider read returns 0 (divider
inactive) and register reads return 0. -/
def sWV : MachineState :=
  { readFn := fun _ _ => 0, readCount := 0, writes := [], usePl011Uart := false,
    usePl011UartSet := true }

/-- The fixture configuration with parity code 2 in the default line-control
byte (0x13 = data-bits code 3, parity code 2). -/
def cfgP : Config :=
  { cfgW with pcdSerialLineControl := 0x13 }

end DualSerialPortLib

namespace DualSerialPortLib

/-! ### C2 — all-default SetAttributes -/

/-- C2, counterexample: on the mini-UART path, `SerialPortSetAttributes` with
every parameter at its use-default sentinel does perform UART register writes
(the divisor and line-control programming sequence), refuting "performs no
UART register writes". -/
theorem c2_counterexample :
    (serialPortSetAttributes cfgW envW 0 0 0 DefaultParity 0 DefaultStopBits sW).state.writes
      ≠ [] := by
  decide

/-- C2, amended: on the mini-UART path, calling `SerialPortSetAttributes` with
every parameter at its use-default sentinel returns `RETURN_SUCCESS`, resolves
the in/out parameters from the configured defaults (`PcdSerialBaudRate` and
the fields of `PcdSerialLineControl` — not from the live line-control
register, which is never read: the only read is the VPU clock-divider
register), and still performs the four programming writes: latch enable,
divisor high and low bytes, and the re-packed line-control byte. -/
theorem c2_amended (cfg : Config) (env : Pl011Env) (fifo timeout : Nat)
    (s : MachineState) (hmini : s.usePl011Uart = false) :
    (serialPortSetAttributes cfg env 0 fifo timeout DefaultParity 0 DefaultStopBits s).status =
        Status.success ∧
    (serialPortSetAttributes cfg env 0 fifo timeout DefaultParity 0 DefaultStopBits s).baudRate =
        cfg.pcdSerialBaudRate ∧
    (serialPortSetAttributes cfg env 0 fifo timeout DefaultParity 0 DefaultStopBits s).dataBits =
        (cfg.pcdSerialLineControl &&& 0x3) + 5 ∧
    (serialPortSetAttributes cfg env 0 fifo timeout DefaultParity 0 DefaultStopBits s).parity =
        (if (cfg.pcdSerialLineControl >>> 3) &&& 0x7 = 0 then NoParity
         else if (cfg.pcdSerialLineControl >>> 3) &&& 0x7 = 3 then EvenParity
         else if (cfg.pcdSerialLineControl >>> 3) &&& 0x7 = 1 then OddParity
         else if (cfg.pcdSerialLineControl >>> 3) &&& 0x7 = 7 then SpaceParity
         else if (cfg.pcdSerialLineControl >>> 3) &&& 0x7 = 5 then MarkParity
         else DefaultParity) ∧
    (serialPortSetAttributes cfg env 0 fifo timeout DefaultParity 0 DefaultStopBits s).stopBits =
        (if (cfg.pcdSerialLineControl >>> 2) &&& 0x1 = 0 then OneStopBit
         else if (cfg.pcdSerialLineControl >>> 2) &&& 0x1 = 1 then
           (if (cfg.pcdSerialLineControl &&& 0x3) + 5 = 5 then OneFiveStopBits
            else TwoStopBits)
         else DefaultStopBits) ∧
    (serialPortSetAttributes cfg env 0 fifo timeout DefaultParity 0
        DefaultStopBits s).state.readCount = s.readCount + 1 ∧
    (serialPortSetAttributes cfg env 0 fifo timeout DefaultParity 0
        DefaultStopBits s).state.writes = s.writes ++
      [(regAddr cfg R_UART_LCR, B_UART_LCR_DLAB % 2 ^ 8),
       (regAddr cfg R_UART_BAUD_HIGH,
        (computeDivisor cfg.pcdSerialClockRate
            (s.readFn s.readCount cfg.cmVpuClockDivisorAddress % 2 ^ 32)
            (cfg.pcdSerialBaudRate % 2 ^ 32) >>> 8) % 2 ^ 8),
       (regAddr cfg R_UART_BAUD_LOW,
        (computeDivisor cfg.pcdSerialClockRate
            (s.readFn s.readCount cfg.cmVpuClockDivisorAddress % 2 ^ 32)
            (cfg.pcdSerialBaudRate % 2 ^ 32) &&& 0xff) % 2 ^ 8),
       (regAddr cfg R_UART_LCR,
        (((((cfg.pcdSerialLineControl >>> 3) &&& 0x7) <<< 3) |||
          (((cfg.pcdSerialLineControl >>> 2) &&& 0x1) <<< 2) |||
          (cfg.pcdSerialLineControl &&& 0x3)) &&& 0x3F) % 2 ^ 8)] := by
  unfold serialPortSetAttributes
  rw [if_neg (show ¬(s.usePl011Uart = true) by simp [hmini])]
  dsimp only
  rw [if_pos (show (0 : Nat) = 0 from rfl), if_pos (show (0 : Nat) = 0 from rfl)]
  unfold setAttributesParity
  rw [if_pos rfl]
  dsimp only
  unfold setAttributesStopBits
  rw [if_pos rfl]
  dsimp only
  rw [setAttributesFinish_spec]
  exact ⟨rfl, rfl, rfl, rfl, rfl, rfl, rfl⟩

/-- C2, witness: the amended behaviour at the concrete fixture (divisor 4,
line-control byte 0x03, so data bits 8, no parity, one stop bit come back). -/
theorem c2_witness :
    (serialPortSetAttributes cfgW envW 0 0 0 DefaultParity 0 DefaultStopBits sWV).status =
        Status.success ∧
    (serialPortSetAttributes cfgW envW 0 0 0 DefaultParity 0 DefaultStopBits sWV).baudRate =
        cfgW.pcdSerialBaudRate ∧
    (serialPortSetAttributes cfgW envW 0 0 0 DefaultParity 0 DefaultStopBits sWV).dataBits =
        (cfgW.pcdSerialLineControl &&& 0x3) + 5 ∧
    (serialPortSetAttributes cfgW envW 0 0 0 DefaultParity 0 DefaultStopBits sWV).parity =
        (if (cfgW.pcdSerialLineControl >>> 3) &&& 0x7 = 0 then NoParity
         else if (cfgW.pcdSerialLineControl >>> 3) &&& 0x7 = 3 then EvenParity
         else if (cfgW.pcdSerialLineControl >>> 3) &&& 0x7 = 1 then OddParity
         else if (cfgW.pcdSerialLineControl >>> 3) &&& 0x7 = 7 then SpaceParity
         else if (cfgW.pcdSerialLineControl >>> 3) &&& 0x7 = 5 then MarkParity
         else DefaultParity) ∧
    (serialPortSetAttributes cfgW envW 0 0 0 DefaultParity 0 DefaultStopBits sWV).stopBits =
        (if (cfgW.pcdSerialLineControl >>> 2) &&& 0x1 = 0 then OneStopBit
         else if (cfgW.pcdSerialLineControl >>> 2) &&& 0x1 = 1 then
           (if (cfgW.pcdSerialLineControl &&& 0x3) + 5 = 5 then OneFiveStopBits
            else TwoStopBits)
         else DefaultStopBits) ∧
    (serialPortSetAttributes cfgW envW 0 0 0 DefaultParity 0
        DefaultStopBits sWV).state.readCount = sWV.readCount + 1 ∧
    (serialPortSetAttributes cfgW envW 0 0 0 DefaultParity 0
        DefaultStopBits sWV).state.writes = sWV.writes ++
      [(regAddr cfgW R_UART_LCR, B_UART_LCR_DLAB % 2 ^ 8),
       (regAddr cfgW R_UART_BAUD_HIGH,
        (computeDivisor cfgW.pcdSerialClockRate
            (sWV.readFn sWV.readCount cfgW.cmVpuClockDivisorAddress % 2 ^ 32)
            (cfgW.pcdSerialBaudRate % 2 ^ 32) >>> 8) % 2 ^ 8),
       (regAddr cfgW R_UART_BAUD_LOW,
        (computeDivisor cfgW.pcdSerialClockRate
            (sWV.readFn sWV.readCount cfgW.cmVpuClockDivisorAddress % 2 ^ 32)
            (cfgW.pcdSerialBaudRate % 2 ^ 32) &&& 0xff) % 2 ^ 8),
       (regAddr cfgW R_UART_LCR,
        (((((cfgW.pcdSerialLineControl >>> 3) &&& 0x7) <<< 3) |||
          (((cfgW.pcdSerialLineControl >>> 2) &&& 0x1) <<< 2) |||
          (cfgW.pcdSerialLineControl &&& 0x3)) &&& 0x3F) % 2 ^ 8)] :=
  c2_amended cfgW envW 0 0 sWV rfl

/-! ### C10 — parity sentinel fall-through -/

/-- C10: on the mini-UART path, when `*Parity = DefaultParity` and the parity
field (bits 5:3) of the configured default line-control byte is 2, 4 or 6
(codes with no table inverse), the call still returns `RETURN_SUCCESS` and
performs the four programming writes, but the parity out-parameter is left at
the `DefaultParity` sentinel. -/
theorem c10_parity_fall_through (cfg : Config) (env : Pl011Env)
    (baud fifo timeout db sb : Nat) (s : MachineState)
    (hmini : s.usePl011Uart = false)
    (hp : (cfg.pcdSerialLineControl >>> 3) &&& 0x7 = 2 ∨
          (cfg.pcdSerialLineControl >>> 3) &&& 0x7 = 4 ∨
          (cfg.pcdSerialLineControl >>> 3) &&& 0x7 = 6)
    (hdb : db = 0 ∨ (5 ≤ db ∧ db ≤ 8)) (hsb : sb ≤ 3) :
    (serialPortSetAttributes cfg env baud fifo timeout DefaultParity db sb s).status =
        Status.success ∧
    (serialPortSetAttributes cfg env baud fifo timeout DefaultParity db sb s).parity =
        DefaultParity ∧
    (serialPortSetAttributes cfg env baud fifo timeout DefaultParity db sb
        s).state.writes.length = s.writes.length + 4 := by
  unfold serialPortSetAttributes
  rw [if_neg (show ¬(s.usePl011Uart = true) by simp [hmini])]
  dsimp only
  rcases hdb with hdb | hdb
  · subst hdb
    rw [if_pos (show (0 : Nat) = 0 from rfl)]
    exact setAttributesParity_sentinelFallThrough cfg _ _ _ fifo timeout _ sb s hp hsb
  · rw [if_neg (show ¬(db = 0) by omega),
        if_neg (show ¬(db < 5 ∨ db > 8) by omega)]
    exact setAttributesParity_sentinelFallThrough cfg _ _ _ fifo timeout _ sb s hp hsb

/-- C10, witness: parity code 2 in the configured byte (line control 0x13),
explicit data bits 8 and one stop bit. -/
theorem c10_witness :
    (serialPortSetAttributes cfgP envW 115200 0 0 DefaultParity 8 1 sW).status =
        Status.success ∧
    (serialPortSetAttributes cfgP envW 115200 0 0 DefaultParity 8 1 sW).parity =
        DefaultParity ∧
    (serialPortSetAttributes cfgP envW 115200 0 0 DefaultParity 8 1
        sW).state.writes.length = sW.writes.length + 4 :=
  c10_parity_fall_through cfgP envW 115200 0 0 8 1 sW rfl (Or.inl (by decide))
    (Or.inr (by norm_num)) (by norm_num)

end DualSerialPortLib

namespace DualSerialPortLib

/-! ### C5 — write completeness -/

/-- C5: on the mini-UART path with a non-null buffer, whenever
`SerialPortWrite` returns (spins allowed to finish), it returns exactly
`NumberOfBytes`, and the write log has grown by exactly the `NumberOfBytes`
buffer bytes written to the transmit-buffer register — in particular a
zero-length write returns 0 and writes nothing (it only spin-waits on
transmitter-empty status and flow-control writability). -/
theorem c5_write_exact (cfg : Config) (env : Pl011Env) (buf : Nat → Nat) (n fuel : Nat)
    (s : MachineState) (hset : s.usePl011UartSet = true) (hmini : s.usePl011Uart = false)
    {r : Nat} {s' : MachineState}
    (h : serialPortWrite cfg env (some buf) n fuel s = some (r, s')) :
    r = n ∧ s'.writes = s.writes ++ (List.range n).map
      (fun i => (regAddr cfg R_UART_TXBUF, buf i % 2 ^ 8)) := by
  unfold serialPortWrite at h
  rw [ensureVariantDetected_probed hset,
      if_neg (show ¬(s.usePl011Uart = true) by simp [hmini])] at h
  dsimp only at h
  by_cases hn : n = 0
  · subst hn
    rw [if_pos rfl] at h
    split at h
    · cases h
    · rename_i u hequ
      split at h
      · cases h
      · rename_i v heqv
        cases h
        have h1 := spinTxEmpty_some hequ
        have h2 := spinWritable_some heqv
        refine ⟨rfl, ?_⟩
        simp [h2.1, h1.1]
  · rw [if_neg hn] at h
    split at h
    · cases h
    · rename_i u hequ
      cases h
      have h1 := writeLoop_some hequ
      refine ⟨rfl, ?_⟩
      rw [h1.1]
      unfold regAddr
      simp

/-- The concrete post-state of writing the two bytes 65, 66 with the fixture
oracle. -/
def c5wState : MachineState :=
  ((serialPortWrite cfgW envW (some fun i => 65 + i) 2 8 sW).getD (0, sW)).2

/-- C5, witness: writing two bytes at the fixture appends exactly the two
transmit-buffer writes and returns 2. -/
theorem c5_witness :
    2 = 2 ∧ c5wState.writes = sW.writes ++ (List.range 2).map
      (fun i => (regAddr cfgW R_UART_TXBUF, (65 + i) % 2 ^ 8)) :=
  c5_write_exact cfgW envW (fun i => 65 + i) 2 8 sW rfl rfl rfl

end DualSerialPortLib

namespace DualSerialPortLib

/-! ### C7 — Initialize idempotence guard -/

/-- C7: on the mini-UART path, if the line-control register read at entry
matches the configured line-control byte on bits 0-5, and the divisor read
under the latch (high byte then low byte) equals the freshly computed target
divisor, then `SerialPortInitialize` returns `RETURN_SUCCESS` after exactly
the six pre-check reads (so the transmitter-empty spin never runs) and
appends only the two divisor-latch toggle writes of the pre-check itself —
no write reprograms the divisor, the line-control byte, FIFO control,
interrupt enable, or modem control.  Hence a second consecutive Initialize
with identical configuration performs no hardware reprogramming. -/
theorem c7_idempotent_skip (cfg : Config) (env : Pl011Env) (fuel : Nat) (s : MachineState)
    (hset : s.usePl011UartSet = true) (hmini : s.usePl011Uart = false)
    (hlcr : s.readFn (s.readCount + 1) (regAddr cfg R_UART_LCR) % 2 ^ 8 &&& 0x3F =
            cfg.pcdSerialLineControl &&& 0x3F)
    (hdiv : ((s.readFn (s.readCount + 3) (regAddr cfg R_UART_BAUD_HIGH) % 2 ^ 8) <<< 8) |||
            (s.readFn (s.readCount + 4) (regAddr cfg R_UART_BAUD_LOW) % 2 ^ 8) =
            computeDivisor cfg.pcdSerialClockRate
              (s.readFn s.readCount cfg.cmVpuClockDivisorAddress % 2 ^ 32)
              cfg.pcdSerialBaudRate) :
    serialPortInitialize cfg env fuel s =
      some (Status.success,
        { s with readCount := s.readCount + 6,
                 writes := s.writes ++
                   [(regAddr cfg R_UART_LCR,
                     (s.readFn (s.readCount + 2) (regAddr cfg R_UART_LCR) % 2 ^ 8 |||
                       B_UART_LCR_DLAB) % 2 ^ 8),
                    (regAddr cfg R_UART_LCR,
                     (s.readFn (s.readCount + 5) (regAddr cfg R_UART_LCR) % 2 ^ 8 &&& 0x7F)
                       % 2 ^ 8)] }) := by
  unfold regAddr at hlcr hdiv
  unfold serialPortInitialize
  rw [ensureVariantDetected_probed hset,
      if_neg (show ¬(s.usePl011Uart = true) by simp [hmini])]
  dsimp only [serialPortGetDivisor, serialPortReadRegister, serialPortWriteRegister,
    mmioRead8, mmioRead32, mmioWrite8]
  have h1 : (s.readFn (s.readCount + 1)
      (cfg.miniUartRegisterBase + R_UART_LCR * cfg.pcdSerialRegisterStride) % 2 ^ 8 &&& 0x3F ==
      cfg.pcdSerialLineControl &&& 0x3F) = true := by
    exact beq_iff_eq.mpr hlcr
  have h2 : (((s.readFn (s.readCount + 3)
      (cfg.miniUartRegisterBase + R_UART_BAUD_HIGH * cfg.pcdSerialRegisterStride) % 2 ^ 8) <<< 8) |||
      (s.readFn (s.readCount + 4)
      (cfg.miniUartRegisterBase + R_UART_BAUD_LOW * cfg.pcdSerialRegisterStride) % 2 ^ 8) ==
      computeDivisor cfg.pcdSerialClockRate
        (s.readFn s.readCount cfg.cmVpuClockDivisorAddress % 2 ^ 32)
        cfg.pcdSerialBaudRate) = true := by
    exact beq_iff_eq.mpr hdiv
  rw [h1, h2]
  simp only [Bool.true_and, if_pos, regAddr, List.append_assoc, List.singleton_append,
    List.cons_append, List.nil_append]

/-- The fixture state whose oracle matches the configured line control (0x03)
and the computed divisor (4) on the pre-check reads. -/
def sWM : MachineState :=
  { readFn := fun _ a => if a = 4099 then 3 else if a = 4097 then 0 else
      if a = 4096 then 4 else 0,
    readCount := 0, writes := [], usePl011Uart := false, usePl011UartSet := true }

/-- C7, witness: at the fixture, Initialize short-circuits with the two latch
toggle writes only. -/
theorem c7_witness :
    serialPortInitialize cfgW envW 9 sWM =
      some (Status.success,
        { sWM with readCount := sWM.readCount + 6,
                   writes := sWM.writes ++
                     [(regAddr cfgW R_UART_LCR,
                       (sWM.readFn (sWM.readCount + 2) (regAddr cfgW R_UART_LCR) % 2 ^ 8 |||
                         B_UART_LCR_DLAB) % 2 ^ 8),
                      (regAddr cfgW R_UART_LCR,
                       (sWM.readFn (sWM.readCount + 5) (regAddr cfgW R_UART_LCR) % 2 ^ 8 &&&
                         0x7F) % 2 ^ 8)] }) :=
  c7_idempotent_skip cfgW envW 9 sWM rfl rfl (by decide) (by decide)

end DualSerialPortLib

namespace DualSerialPortLib

/-! ### Initialize full-programming path and SetAttributes case analysis -/

/-- When the line-control pre-check mismatches, a returning
`SerialPortInitialize` has run the full programming sequence: success, and
the write log grew by the two pre-check latch toggles followed by the eight
programming writes. -/
theorem serialPortInitialize_full_program (cfg : Config) (env : Pl011Env) (fuel : Nat)
    (s : MachineState) (hset : s.usePl011UartSet = true) (hmini : s.usePl011Uart = false)
    (hmm : ¬(s.readFn (s.readCount + 1) (regAddr cfg R_UART_LCR) % 2 ^ 8 &&& 0x3F =
             cfg.pcdSerialLineControl &&& 0x3F))
    {st : Status} {s' : MachineState}
    (h : serialPortInitialize cfg env fuel s = some (st, s')) :
    st = Status.success ∧
    s'.writes = s.writes ++
      [(regAddr cfg R_UART_LCR,
        (s.readFn (s.readCount + 2) (regAddr cfg R_UART_LCR) % 2 ^ 8 ||| B_UART_LCR_DLAB)
          % 2 ^ 8),
       (regAddr cfg R_UART_LCR,
        (s.readFn (s.readCount + 5) (regAddr cfg R_UART_LCR) % 2 ^ 8 &&& 0x7F) % 2 ^ 8),
       (regAddr cfg R_UART_LCR, B_UART_LCR_DLAB),
       (regAddr cfg R_UART_BAUD_HIGH,
        (computeDivisor cfg.pcdSerialClockRate
            (s.readFn s.readCount cfg.cmVpuClockDivisorAddress % 2 ^ 32)
            cfg.pcdSerialBaudRate >>> 8) % 2 ^ 8),
       (regAddr cfg R_UART_BAUD_LOW,
        (computeDivisor cfg.pcdSerialClockRate
            (s.readFn s.readCount cfg.cmVpuClockDivisorAddress % 2 ^ 32)
            cfg.pcdSerialBaudRate &&& 0xff) % 2 ^ 8),
       (regAddr cfg R_UART_LCR, (cfg.pcdSerialLineControl &&& 0x3F) % 2 ^ 8),
       (regAddr cfg R_UART_FCR, 0),
       (regAddr cfg R_UART_FCR,
        (cfg.pcdSerialFifoControl &&& (B_UART_FCR_FIFOE ||| B_UART_FCR_FIFO64)) % 2 ^ 8),
       (regAddr cfg R_UART_IER, 0),
       (regAddr cfg R_UART_MCR, 0)] := by
  unfold regAddr at hmm ⊢
  unfold serialPortInitialize at h
  rw [ensureVariantDetected_probed hset,
      if_neg (show ¬(s.usePl011Uart = true) by simp [hmini])] at h
  dsimp only [serialPortGetDivisor, serialPortReadRegister, serialPortWriteRegister,
    mmioRead8, mmioRead32, mmioWrite8] at h
  rw [show (s.readFn (s.readCount + 1)
      (cfg.miniUartRegisterBase + R_UART_LCR * cfg.pcdSerialRegisterStride) % 2 ^ 8 &&& 0x3F ==
      cfg.pcdSerialLineControl &&& 0x3F) = false from beq_eq_false_iff_ne.mpr hmm,
      Bool.false_and] at h
  simp only [Bool.false_eq_true, if_false] at h
  split at h
  · cases h
  · rename_i u hequ
    cases h
    have h1 := spinTxEmpty_some hequ
    refine ⟨rfl, ?_⟩
    simp only [h1.1]
    simp [List.append_assoc]
    decide

/-- The stop-bits stage either fails leaving the state unchanged or reduces to
the programming tail. -/
theorem setAttributesStopBits_cases (cfg : Config) (sbr ld lp b f t p d sb : Nat)
    (s : MachineState) :
    ((setAttributesStopBits cfg sbr ld lp b f t p d sb s).status =
        Status.invalidParameter ∧
     (setAttributesStopBits cfg sbr ld lp b f t p d sb s).state = s) ∨
    (∃ ls sb2, setAttributesStopBits cfg sbr ld lp b f t p d sb s =
        setAttributesFinish cfg sbr ld lp ls b f t p d sb2 s) := by
  unfold setAttributesStopBits
  split
  · right; exact ⟨_, _, rfl⟩
  · split
    · right; exact ⟨_, _, rfl⟩
    · split
      · right; exact ⟨_, _, rfl⟩
      · left; exact ⟨rfl, rfl⟩

/-- The parity stage either fails leaving the state unchanged or reduces to
the stop-bits stage. -/
theorem setAttributesParity_cases (cfg : Config) (sbr ld b f t p d sb : Nat)
    (s : MachineState) :
    ((setAttributesParity cfg sbr ld b f t p d sb s).status =
        Status.invalidParameter ∧
     (setAttributesParity cfg sbr ld b f t p d sb s).state = s) ∨
    (∃ lp p2, setAttributesParity cfg sbr ld b f t p d sb s =
        setAttributesStopBits cfg sbr ld lp b f t p2 d sb s) := by
  unfold setAttributesParity
  split
  · right; exact ⟨_, _, rfl⟩
  · split
    · right; exact ⟨_, _, rfl⟩
    · split
      · right; exact ⟨_, _, rfl⟩
      · split
        · right; exact ⟨_, _, rfl⟩
        · split
          · right; exact ⟨_, _, rfl⟩
          · split
            · right; exact ⟨_, _, rfl⟩
            · left; exact ⟨rfl, rfl⟩

/-- On the mini-UART path, `SerialPortSetAttributes` either fails validation
with the state unchanged, or runs the programming tail `setAttributesFinish`
on the entry state. -/
theorem serialPortSetAttributes_mini_cases (cfg : Config) (env : Pl011Env)
    (b f t p d sb : Nat) (s : MachineState) (hmini : s.usePl011Uart = false) :
    ((serialPortSetAttributes cfg env b f t p d sb s).status =
        Status.invalidParameter ∧
     (serialPortSetAttributes cfg env b f t p d sb s).state = s) ∨
    (∃ sbr ld lp ls b2 p2 d2 sb2,
      serialPortSetAttributes cfg env b f t p d sb s =
        setAttributesFinish cfg sbr ld lp ls b2 f t p2 d2 sb2 s) := by
  have hmain : ((serialPortSetAttributes cfg env b f t p d sb s).status =
        Status.invalidParameter ∧
      (serialPortSetAttributes cfg env b f t p d sb s).state = s) ∨
      (∃ sbr ld b2 d2, serialPortSetAttributes cfg env b f t p d sb s =
        setAttributesParity cfg sbr ld b2 f t p d2 sb s) := by
    unfold serialPortSetAttributes
    rw [if_neg (show ¬(s.usePl011Uart = true) by simp [hmini])]
    dsimp only
    split
    · right; exact ⟨_, _, _, _, rfl⟩
    · split
      · left; exact ⟨rfl, rfl⟩
      · right; exact ⟨_, _, _, _, rfl⟩
  rcases hmain with h | ⟨sbr, ld, b2, d2, heq⟩
  · left; exact h
  · rcases setAttributesParity_cases cfg sbr ld b2 f t p d2 sb s with h | ⟨lp, p2, heq2⟩
    · rw [heq]; left; exact h
    · rcases setAttributesStopBits_cases cfg sbr ld lp b2 f t p2 d2 sb s with
        h | ⟨ls, sb2, heq3⟩
      · rw [heq, heq2]; left; exact h
      · right
        exact ⟨sbr, ld, lp, ls, b2, p2, d2, sb2, by rw [heq, heq2, heq3]⟩

/-- A value masked to bits 0-5 has bits 6 and 7 clear. -/
theorem masked_lineControl_bits67 (x : Nat) : ((x &&& 0x3F) % 2 ^ 8) &&& 0xC0 = 0 := by
  have h1 : x &&& 0x3F < 2 ^ 8 := lt_of_le_of_lt Nat.and_le_right (by norm_num)
  rw [Nat.mod_eq_of_lt h1, Nat.and_assoc,
      show (0x3F &&& 0xC0 : Nat) = 0 from by decide, Nat.and_zero]

end DualSerialPortLib

namespace DualSerialPortLib

/-! ### C8 — line-control reserved-bit masking -/

/-- C8, counterexample: the divisor-latch enable write of the programming
sequence stores 0x80 (bit 7 set) in the line-control register, so "every
value written to the line-control register has bits 6 and 7 clear" is false. -/
theorem c8_counterexample :
    (regAddr cfgW R_UART_LCR, 128) ∈
      (serialPortSetAttributes cfgW envW 115200 0 0 1 8 1 sWV).state.writes ∧
    ¬(128 &&& 0xC0 = 0) := by
  decide

/-- C8, amended: the writes that program the line-control byte proper (the
final write of `SerialPortSetAttributes`'s programming tail and the
corresponding write of `SerialPortInitialize`'s full programming sequence)
are masked to bits 0-5, so their bits 6 and 7 are clear; the divisor-latch
protocol writes are exempt — the latch-enable writes store bit 7 (DLAB), and
the pre-check latch-restore write clears only bit 7 of a read-back value.
Concretely: a successful mini-UART `SetAttributes` appends latch-enable,
divisor high, divisor low, then a line-control value `v` with
`v &&& 0xC0 = 0`; a returning `Initialize` whose pre-check mismatched appends
the two pre-check latch toggles and the eight programming writes, whose
line-control byte `(PcdSerialLineControl &&& 0x3F)` has bits 6-7 clear. -/
theorem c8_lcr_masking (cfg : Config) (env : Pl011Env)
    (baud fifo timeout par db sb fuel : Nat) (s s2 : MachineState)
    (hmini : s.usePl011Uart = false)
    (hsucc : (serialPortSetAttributes cfg env baud fifo timeout par db sb s).status =
      Status.success)
    (hset2 : s2.usePl011UartSet = true) (hmini2 : s2.usePl011Uart = false)
    (hmm : ¬(s2.readFn (s2.readCount + 1) (regAddr cfg R_UART_LCR) % 2 ^ 8 &&& 0x3F =
             cfg.pcdSerialLineControl &&& 0x3F))
    {st : Status} {s2' : MachineState}
    (hI : serialPortInitialize cfg env fuel s2 = some (st, s2')) :
    (∃ hi lo v,
      (serialPortSetAttributes cfg env baud fifo timeout par db sb s).state.writes =
        s.writes ++
          [(regAddr cfg R_UART_LCR, B_UART_LCR_DLAB),
           (regAddr cfg R_UART_BAUD_HIGH, hi),
           (regAddr cfg R_UART_BAUD_LOW, lo),
           (regAddr cfg R_UART_LCR, v)] ∧
      v &&& 0xC0 = 0) ∧
    (∃ w1 w2 hi lo,
      s2'.writes = s2.writes ++
        [(regAddr cfg R_UART_LCR, w1),
         (regAddr cfg R_UART_LCR, w2),
         (regAddr cfg R_UART_LCR, B_UART_LCR_DLAB),
         (regAddr cfg R_UART_BAUD_HIGH, hi),
         (regAddr cfg R_UART_BAUD_LOW, lo),
         (regAddr cfg R_UART_LCR, (cfg.pcdSerialLineControl &&& 0x3F) % 2 ^ 8),
         (regAddr cfg R_UART_FCR, 0),
         (regAddr cfg R_UART_FCR,
          (cfg.pcdSerialFifoControl &&& (B_UART_FCR_FIFOE ||| B_UART_FCR_FIFO64)) % 2 ^ 8),
         (regAddr cfg R_UART_IER, 0),
         (regAddr cfg R_UART_MCR, 0)] ∧
      (cfg.pcdSerialLineControl &&& 0x3F) % 2 ^ 8 &&& 0xC0 = 0) := by
  constructor
  · rcases serialPortSetAttributes_mini_cases cfg env baud fifo timeout par db sb s hmini
      with h | ⟨sbr, ld, lp, ls, b2, p2, d2, sb2, heq⟩
    · rw [h.1] at hsucc
      cases hsucc
    · rw [heq, setAttributesFinish_spec]
      refine ⟨(computeDivisor cfg.pcdSerialClockRate
          (s.readFn s.readCount cfg.cmVpuClockDivisorAddress % 2 ^ 32) sbr >>> 8) % 2 ^ 8,
        (computeDivisor cfg.pcdSerialClockRate
          (s.readFn s.readCount cfg.cmVpuClockDivisorAddress % 2 ^ 32) sbr &&& 0xff) % 2 ^ 8,
        ((lp <<< 3 ||| ls <<< 2 ||| ld) &&& 0x3F) % 2 ^ 8, ?_,
        masked_lineControl_bits67 _⟩
      dsimp only
      simp [List.append_assoc]
      decide
  · have h2 := serialPortInitialize_full_program cfg env fuel s2 hset2 hmini2 hmm hI
    exact ⟨_, _, _, _, h2.2, masked_lineControl_bits67 _⟩

/-- The concrete post-state of the full Initialize programming run used by the
C8 witness (mismatching pre-check: the oracle returns 0xFF everywhere). -/
def c8wState : MachineState :=
  ((serialPortInitialize cfgW envW 20 sW).getD (Status.success, sW)).2

/-- C8, witness: both parts of the amended claim at concrete fixtures. -/
theorem c8_witness :
    (∃ hi lo v,
      (serialPortSetAttributes cfgW envW 115200 0 0 1 8 1 sWV).state.writes =
        sWV.writes ++
          [(regAddr cfgW R_UART_LCR, B_UART_LCR_DLAB),
           (regAddr cfgW R_UART_BAUD_HIGH, hi),
           (regAddr cfgW R_UART_BAUD_LOW, lo),
           (regAddr cfgW R_UART_LCR, v)] ∧
      v &&& 0xC0 = 0) ∧
    (∃ w1 w2 hi lo,
      c8wState.writes = sW.writes ++
        [(regAddr cfgW R_UART_LCR, w1),
         (regAddr cfgW R_UART_LCR, w2),
         (regAddr cfgW R_UART_LCR, B_UART_LCR_DLAB),
         (regAddr cfgW R_UART_BAUD_HIGH, hi),
         (regAddr cfgW R_UART_BAUD_LOW, lo),
         (regAddr cfgW R_UART_LCR, (cfgW.pcdSerialLineControl &&& 0x3F) % 2 ^ 8),
         (regAddr cfgW R_UART_FCR, 0),
         (regAddr cfgW R_UART_FCR,
          (cfgW.pcdSerialFifoControl &&& (B_UART_FCR_FIFOE ||| B_UART_FCR_FIFO64)) % 2 ^ 8),
         (regAddr cfgW R_UART_IER, 0),
         (regAddr cfgW R_UART_MCR, 0)] ∧
      (cfgW.pcdSerialLineControl &&& 0x3F) % 2 ^ 8 &&& 0xC0 = 0) :=
  c8_lcr_masking cfgW envW 115200 0 0 1 8 1 20 sWV sW rfl (by decide) rfl rfl
    (by decide) rfl

end DualSerialPortLib

namespace DualSerialPortLib

/-! ### C1 — one-shot variant detection -/

/-- C1, counterexample: `SerialPortPoll` executed from the initial unprobed
state performs no variant detection — afterwards `UsePl011UartSet` is still
false, refuting "every public operation performs the one-shot detection". -/
theorem c1_counterexample :
    sWU.usePl011UartSet = false ∧
    (serialPortPoll cfgW envW sWU).2.usePl011UartSet ≠ true := by
  exact ⟨rfl, by decide⟩

/-- C1, amended: only `SerialPortInitialize` and `SerialPortWrite` perform
the one-shot variant detection before branching — from the unprobed state,
whenever either returns, `UsePl011UartSet` is true and `UsePl011Uart` equals
whether the GPIO function-select register masked with 0x0003F000 equals
0x00024000; the other five operations (`Read`, `Poll`, `GetControl`,
`SetControl`, `SetAttributes`) branch on the memoized flag without probing,
leaving `UsePl011UartSet` false. -/
theorem c1_detection_only_in_init_and_write (cfg : Config) (env : Pl011Env)
    (bufW : Option (Nat → Nat)) (bufR : Option Unit)
    (nW nR fI fW fR control baud fifo timeout par db sb : Nat) (s : MachineState)
    (h0 : s.usePl011UartSet = false)
    {stI : Status} {sI : MachineState}
    (hI : serialPortInitialize cfg env fI s = some (stI, sI))
    {rW : Nat} {sWr : MachineState}
    (hW : serialPortWrite cfg env bufW nW fW s = some (rW, sWr))
    {rR : Nat} {outR : List Nat} {sR : MachineState}
    (hR : serialPortRead cfg env bufR nR fR s = some (rR, outR, sR)) :
    (sI.usePl011UartSet = true ∧
     sI.usePl011Uart = ((s.readFn s.readCount (cfg.gpioBaseAddress + 4) % 2 ^ 32 &&&
       0x0003F000) == 0x00024000)) ∧
    (sWr.usePl011UartSet = true ∧
     sWr.usePl011Uart = ((s.readFn s.readCount (cfg.gpioBaseAddress + 4) % 2 ^ 32 &&&
       0x0003F000) == 0x00024000)) ∧
    sR.usePl011UartSet = false ∧
    (serialPortPoll cfg env s).2.usePl011UartSet = false ∧
    (serialPortGetControl cfg env s).2.2.usePl011UartSet = false ∧
    (serialPortSetControl cfg env control s).2.usePl011UartSet = false ∧
    (serialPortSetAttributes cfg env baud fifo timeout par db sb
      s).state.usePl011UartSet = false := by
  have hdet := @ensureVariantDetected_unprobed cfg s h0
  have hIf := serialPortInitialize_some_flags hI
  have hWf := serialPortWrite_some_flags hW
  have hRf := serialPortRead_some_flags hR
  refine ⟨⟨?_, ?_⟩, ⟨?_, ?_⟩, ?_, ?_, ?_, ?_, ?_⟩
  · rw [hIf.2, hdet]
  · rw [hIf.1, hdet]
  · rw [hWf.2, hdet]
  · rw [hWf.1, hdet]
  · rw [hRf.2, h0]
  · rw [(serialPortPoll_flags cfg env s).2, h0]
  · rw [(serialPortGetControl_flags cfg env s).2, h0]
  · rw [(serialPortSetControl_flags cfg env control s).2, h0]
  · rw [(serialPortSetAttributes_flags cfg env baud fifo timeout par db sb s).2, h0]

/-- The post-state of a concrete Initialize from the unprobed fixture. -/
def c1wI : MachineState :=
  ((serialPortInitialize cfgW envW 20 sWU).getD (Status.success, sWU)).2

/-- The post-state of a concrete one-byte Write from the unprobed fixture. -/
def c1wW : MachineState :=
  ((serialPortWrite cfgW envW (some fun _ => 65) 1 8 sWU).getD (0, sWU)).2

/-- C1, witness: from the unprobed fixture, Initialize and Write memoize the
variant (GPIO reads 0xFF, so the mini UART is selected) while Read (with a
NULL buffer), Poll, GetControl, SetControl and SetAttributes leave the flag
unset. -/
theorem c1_witness :
    (c1wI.usePl011UartSet = true ∧
     c1wI.usePl011Uart = ((sWU.readFn sWU.readCount (cfgW.gpioBaseAddress + 4) % 2 ^ 32 &&&
       0x0003F000) == 0x00024000)) ∧
    (c1wW.usePl011UartSet = true ∧
     c1wW.usePl011Uart = ((sWU.readFn sWU.readCount (cfgW.gpioBaseAddress + 4) % 2 ^ 32 &&&
       0x0003F000) == 0x00024000)) ∧
    sWU.usePl011UartSet = false ∧
    (serialPortPoll cfgW envW sWU).2.usePl011UartSet = false ∧
    (serialPortGetControl cfgW envW sWU).2.2.usePl011UartSet = false ∧
    (serialPortSetControl cfgW envW 2 sWU).2.usePl011UartSet = false ∧
    (serialPortSetAttributes cfgW envW 0 0 0 0 0 0 sWU).state.usePl011UartSet = false :=
  c1_detection_only_in_init_and_write cfgW envW (some fun _ => 65) none 1 5 20 8 5 2
    0 0 0 0 0 0 sWU rfl rfl rfl rfl

end DualSerialPortLib
